import Mathlib

/-!
Verification development for the travel-planner backend
(`src/api/models.py`, `src/api/schemas.py`, `src/api/routes.py`,
`src/api/services.py`).

The embedding models:
* the six entity tables of `models.py` as lists of rows inside a `DB` state;
* the request/validation shapes of `schemas.py` together with their declared
  field constraints;
* every create/update/delete/list route handler of `routes.py` as an explicit
  state-passing function `DB → … → ApiResult _ × DB`;
* the relational store as enforcing the constraints declared on the columns
  (`nullable=False`, `ForeignKey(..., ondelete="CASCADE"/"SET NULL")`): a
  commit that violates them fails with a storage-level error and leaves the
  state unchanged, exactly as an `IntegrityError` rolls the session back.

Conventions:
* `datetime`/`date` values are modelled as `Nat` clock readings; every
  mutating handler takes the current time `now` (the single `utcnow` reading
  of the request).
* the `float` column `cost` is carried opaquely as an `Int` stand-in; no
  arithmetic is ever performed on it.
* generated primary keys come from per-table counters, mirroring
  autoincrementing integer primary keys.
* SQLAlchemy's unit of work emits an UPDATE only when some instrumented
  attribute has a net change (a value set equal to the stored one produces no
  net change, and `exclude_unset` means absent fields are never set); the
  `onupdate=datetime.utcnow` refresh of `updated_at` fires exactly when that
  UPDATE is emitted.
-/

/-- Python truthiness of an `Optional[int]` value: `None` and `0` are falsy.
Mirrors guards such as `if trip_id:` and `data["trip_id"] and …`. -/
def truthyOptInt : Option Int → Bool
  | none => false
  | some v => v != 0

/-- Result of a route handler: either a payload or an HTTP-level failure.
`notFound` carries the `detail` string of the raised 404; `storageError` is a
lower-level storage failure (constraint violation surfacing as a 500). -/
inductive ApiError where
  | notFound (detail : String)
  | storageError
  deriving DecidableEq, Repr

abbrev ApiResult (α : Type) := Except ApiError α

/- ### Rows: one structure per table of `models.py` -/

/-- Row of table `trips`. -/
structure TripRow where
  id : Int
  name : String
  description : Option String
  start_date : Option Nat
  end_date : Option Nat
  created_at : Nat
  updated_at : Nat
  deriving DecidableEq, Repr

/-- Row of table `destinations`; `trip_id` is NOT NULL with
`ForeignKey("trips.id", ondelete="CASCADE")`. -/
structure DestinationRow where
  id : Int
  trip_id : Int
  name : String
  country : Option String
  arrival_date : Option Nat
  departure_date : Option Nat
  notes : Option String
  created_at : Nat
  updated_at : Nat
  deriving DecidableEq, Repr

/-- Row of table `itinerary_items`; `trip_id` is NOT NULL (CASCADE) and
`destination_id` is nullable with `ondelete="SET NULL"`. -/
structure ItineraryItemRow where
  id : Int
  trip_id : Int
  destination_id : Option Int
  title : String
  description : Option String
  date : Option Nat
  start_time : Option String
  end_time : Option String
  location : Option String
  cost : Option Int
  created_at : Nat
  updated_at : Nat
  deriving DecidableEq, Repr

/-- Row of table `accommodations`. -/
structure AccommodationRow where
  id : Int
  trip_id : Int
  name : String
  address : Option String
  check_in : Option Nat
  check_out : Option Nat
  booking_ref : Option String
  notes : Option String
  created_at : Nat
  updated_at : Nat
  deriving DecidableEq, Repr

/-- Row of table `transports`. -/
structure TransportRow where
  id : Int
  trip_id : Int
  type : String
  provider : Option String
  departure_location : Option String
  arrival_location : Option String
  departure_date : Option Nat
  arrival_date : Option Nat
  booking_ref : Option String
  notes : Option String
  created_at : Nat
  updated_at : Nat
  deriving DecidableEq, Repr

/-- Row of table `notes`. -/
structure NoteRow where
  id : Int
  trip_id : Int
  title : String
  content : Option String
  created_at : Nat
  updated_at : Nat
  deriving DecidableEq, Repr

/- ### Database state -/

/-- The relational store: one list of rows per table plus the id generators. -/
structure DB where
  trips : List TripRow := []
  destinations : List DestinationRow := []
  itinerary_items : List ItineraryItemRow := []
  accommodations : List AccommodationRow := []
  transports : List TransportRow := []
  notes : List NoteRow := []
  next_trip_id : Int := 1
  next_destination_id : Int := 1
  next_itinerary_id : Int := 1
  next_accommodation_id : Int := 1
  next_transport_id : Int := 1
  next_note_id : Int := 1
  deriving DecidableEq, Repr

/-- The freshly created store (`Base.metadata.create_all` on a new file). -/
def emptyDB : DB := {}

/-- `db.get(models.Trip, i)`. -/
def DB.getTrip (db : DB) (i : Int) : Option TripRow :=
  db.trips.find? (fun t => t.id == i)

/-- `db.get(models.Destination, i)`. -/
def DB.getDestination (db : DB) (i : Int) : Option DestinationRow :=
  db.destinations.find? (fun d => d.id == i)

/-- `db.get(models.ItineraryItem, i)`. -/
def DB.getItineraryItem (db : DB) (i : Int) : Option ItineraryItemRow :=
  db.itinerary_items.find? (fun x => x.id == i)

/-- `db.get(models.Accommodation, i)`. -/
def DB.getAccommodation (db : DB) (i : Int) : Option AccommodationRow :=
  db.accommodations.find? (fun x => x.id == i)

/-- `db.get(models.Transport, i)`. -/
def DB.getTransport (db : DB) (i : Int) : Option TransportRow :=
  db.transports.find? (fun x => x.id == i)

/-- `db.get(models.Note, i)`. -/
def DB.getNote (db : DB) (i : Int) : Option NoteRow :=
  db.notes.find? (fun x => x.id == i)

/- ### Request shapes: one structure per pydantic schema of `schemas.py`.

Update shapes use `Option (Option α)` per field: the outer layer records
whether the field was present in the JSON body (`model_dump(exclude_unset)`
semantics), the inner layer is the transmitted value, which may be an
explicit `null`. -/

/-- `TripCreate`. -/
structure TripCreate where
  name : String
  description : Option String := none
  start_date : Option Nat := none
  end_date : Option Nat := none
  deriving DecidableEq, Repr

/-- `TripUpdate`. -/
structure TripUpdate where
  name : Option (Option String) := none
  description : Option (Option String) := none
  start_date : Option (Option Nat) := none
  end_date : Option (Option Nat) := none
  deriving DecidableEq, Repr

/-- `DestinationCreate`. -/
structure DestinationCreate where
  name : String
  country : Option String := none
  arrival_date : Option Nat := none
  departure_date : Option Nat := none
  notes : Option String := none
  trip_id : Int
  deriving DecidableEq, Repr

/-- `DestinationUpdate` (note: no `trip_id` field, and no constraints). -/
structure DestinationUpdate where
  name : Option (Option String) := none
  country : Option (Option String) := none
  arrival_date : Option (Option Nat) := none
  departure_date : Option (Option Nat) := none
  notes : Option (Option String) := none
  deriving DecidableEq, Repr

/-- `ItineraryItemCreate`. -/
structure ItineraryItemCreate where
  title : String
  description : Option String := none
  date : Option Nat := none
  start_time : Option String := none
  end_time : Option String := none
  location : Option String := none
  cost : Option Int := none
  destination_id : Option Int := none
  trip_id : Int
  deriving DecidableEq, Repr

/-- `ItineraryItemUpdate`. -/
structure ItineraryItemUpdate where
  title : Option (Option String) := none
  description : Option (Option String) := none
  date : Option (Option Nat) := none
  start_time : Option (Option String) := none
  end_time : Option (Option String) := none
  location : Option (Option String) := none
  cost : Option (Option Int) := none
  destination_id : Option (Option Int) := none
  trip_id : Option (Option Int) := none
  deriving DecidableEq, Repr

/-- `AccommodationCreate`. -/
structure AccommodationCreate where
  name : String
  address : Option String := none
  check_in : Option Nat := none
  check_out : Option Nat := none
  booking_ref : Option String := none
  notes : Option String := none
  trip_id : Int
  deriving DecidableEq, Repr

/-- `AccommodationUpdate`. -/
structure AccommodationUpdate where
  name : Option (Option String) := none
  address : Option (Option String) := none
  check_in : Option (Option Nat) := none
  check_out : Option (Option Nat) := none
  booking_ref : Option (Option String) := none
  notes : Option (Option String) := none
  trip_id : Option (Option Int) := none
  deriving DecidableEq, Repr

/-- `TransportCreate`. -/
structure TransportCreate where
  type : String
  provider : Option String := none
  departure_location : Option String := none
  arrival_location : Option String := none
  departure_date : Option Nat := none
  arrival_date : Option Nat := none
  booking_ref : Option String := none
  notes : Option String := none
  trip_id : Int
  deriving DecidableEq, Repr

/-- `TransportUpdate`. -/
structure TransportUpdate where
  type : Option (Option String) := none
  provider : Option (Option String) := none
  departure_location : Option (Option String) := none
  arrival_location : Option (Option String) := none
  departure_date : Option (Option Nat) := none
  arrival_date : Option (Option Nat) := none
  booking_ref : Option (Option String) := none
  notes : Option (Option String) := none
  trip_id : Option (Option Int) := none
  deriving DecidableEq, Repr

/-- `NoteCreate`. -/
structure NoteCreate where
  title : String
  content : Option String := none
  trip_id : Int
  deriving DecidableEq, Repr

/-- `NoteUpdate`. -/
structure NoteUpdate where
  title : Option (Option String) := none
  content : Option (Option String) := none
  trip_id : Option (Option Int) := none
  deriving DecidableEq, Repr

/- ### Field-constraint validation, from the `Field(...)` declarations of
`schemas.py`.  pydantic applies `min_length`/`max_length`/`ge` only to a
present non-`null` value of the right type; schemas that declare no
constraints accept every body.  These run before any route code (422). -/

/-- `min_length=1, max_length=200` on a required string field. -/
def lenOK (s : String) : Bool := 1 ≤ s.length && s.length ≤ 200

/-- A bound applied to an optional field: skipped on `null`/absent. -/
def optBound {α : Type} (check : α → Bool) : Option α → Bool
  | none => true
  | some v => check v

/-- `TripCreate`: `name` has `min_length=1, max_length=200`. -/
def validTripCreate (p : TripCreate) : Bool := lenOK p.name

/-- `TripUpdate`: `name` keeps `min_length=1, max_length=200`. -/
def validTripUpdate (p : TripUpdate) : Bool :=
  match p.name with
  | some (some s) => lenOK s
  | _ => true

/-- `DestinationCreate`: `name` length bounds, `trip_id` has `ge=1`. -/
def validDestinationCreate (p : DestinationCreate) : Bool :=
  lenOK p.name && (1 : Int) ≤ p.trip_id

/-- `DestinationUpdate` declares no field constraints. -/
def validDestinationUpdate (_p : DestinationUpdate) : Bool := true

/-- `ItineraryItemCreate`: `title` length bounds, `trip_id` and a present
`destination_id` have `ge=1`. -/
def validItineraryItemCreate (p : ItineraryItemCreate) : Bool :=
  lenOK p.title && (1 : Int) ≤ p.trip_id
    && optBound (fun d => (1 : Int) ≤ d) p.destination_id

/-- `ItineraryItemUpdate` declares no field constraints. -/
def validItineraryItemUpdate (_p : ItineraryItemUpdate) : Bool := true

/-- `AccommodationCreate`: `name` length bounds, `trip_id` has `ge=1`. -/
def validAccommodationCreate (p : AccommodationCreate) : Bool :=
  lenOK p.name && (1 : Int) ≤ p.trip_id

/-- `AccommodationUpdate` declares no field constraints. -/
def validAccommodationUpdate (_p : AccommodationUpdate) : Bool := true

/-- `TransportCreate`: `type` has `min_length=1, max_length=100`,
`trip_id` has `ge=1`. -/
def validTransportCreate (p : TransportCreate) : Bool :=
  (1 ≤ p.type.length && p.type.length ≤ 100) && (1 : Int) ≤ p.trip_id

/-- `TransportUpdate` declares no field constraints. -/
def validTransportUpdate (_p : TransportUpdate) : Bool := true

/-- `NoteCreate`: `title` length bounds, `trip_id` has `ge=1`. -/
def validNoteCreate (p : NoteCreate) : Bool :=
  lenOK p.title && (1 : Int) ≤ p.trip_id

/-- `NoteUpdate` declares no field constraints. -/
def validNoteUpdate (_p : NoteUpdate) : Bool := true

/- ### Mock destination search (`routes.py`, `MOCK_DESTINATIONS` and
`search_destinations`) -/

/-- One record of the fixed mock dataset. -/
structure MockDestination where
  name : String
  country : String
  region : Option String
  iata : Option String
  deriving DecidableEq, Repr

/-- `MOCK_DESTINATIONS`: the six hardcoded records. -/
def MOCK_DESTINATIONS : List MockDestination :=
  [ ⟨"Paris", "France", some "Île-de-France", some "CDG"⟩,
    ⟨"Lyon", "France", some "Auvergne-Rhône-Alpes", none⟩,
    ⟨"New York", "USA", some "NY", some "JFK"⟩,
    ⟨"San Francisco", "USA", some "CA", some "SFO"⟩,
    ⟨"Tokyo", "Japan", some "Kanto", some "HND"⟩,
    ⟨"Kyoto", "Japan", some "Kansai", none⟩ ]

/-- `s.lower()`, ASCII case folding (every string the search compares is
ASCII). -/
def lowChars (s : String) : List Char := s.toList.map Char.toLower

/-- `needle in hay` on character lists: some suffix of `hay` starts with
`needle`. -/
def subAt (needle : List Char) : List Char → Bool
  | [] => needle.isEmpty
  | c :: rest => List.isPrefixOf needle (c :: rest) || subAt needle rest

/-- Case-insensitive substring test, Python `needle.lower() in hay.lower()`. -/
def containsCI (hay needle : String) : Bool := subAt (lowChars needle) (lowChars hay)

/-- The filter predicate of `search_destinations`: the query matches the name
or a truthy `iata` code, and the record survives the country filter
(`country.lower() in d["country"].lower() if country else True`, with Python
truthiness on the optional `country` argument, so an empty-string filter is
treated like no filter). -/
def mockMatch (q : String) (country : Option String) (d : MockDestination) : Bool :=
  (containsCI d.name q
      || (match d.iata with
          | some code => code != "" && containsCI code q
          | none => false))
    && (match country with
        | some c => if c != "" then containsCI d.country c else true
        | none => true)

/-- `search_destinations`: returns the filtered records and `total`, the
length of the result list. -/
def search_destinations (q : String) (country : Option String) :
    List MockDestination × Nat :=
  let results := MOCK_DESTINATIONS.filter (mockMatch q country)
  (results, results.length)

/- ### Route registration and dispatch (`main.py` + `routes.py`)

FastAPI/Starlette match an incoming path against the registered routes in
registration order; a path parameter segment matches any nonempty segment
(regex `[^/]+`), and only after a route is selected is the declared `int`
type applied to the raw segment, a failure there yielding a 422 without
trying later routes.  Paths are represented by their slash-separated
segments. -/

/-- One segment of a route pattern: a fixed literal or an `int`-typed path
parameter. -/
inductive Seg where
  | lit (s : String)
  | intParam (name : String)
  deriving DecidableEq, Repr

/-- Does a pattern match a concrete segment list, and with which raw
captures? A parameter matches any nonempty segment. -/
def matchSegs : List Seg → List String → Option (List String)
  | [], [] => some []
  | Seg.lit s :: ps, x :: xs => if x == s then matchSegs ps xs else none
  | Seg.intParam _ :: ps, x :: xs =>
      if x != "" then (matchSegs ps xs).map (fun caps => x :: caps) else none
  | _, _ => none

/-- The GET routes in registration order: the health route of `main.py` is
registered on the app first, then `include_router` adds the router's routes
in file order — `/destinations/search` is declared at the bottom of
`routes.py`, after `/destinations/{destination_id}`. -/
def getRoutes : List (List Seg × String) :=
  [ ([], "health_check"),
    ([Seg.lit "trips"], "list_trips"),
    ([Seg.lit "trips", Seg.intParam "trip_id"], "get_trip"),
    ([Seg.lit "destinations"], "list_destinations"),
    ([Seg.lit "destinations", Seg.intParam "destination_id"], "get_destination"),
    ([Seg.lit "itinerary"], "list_itinerary"),
    ([Seg.lit "itinerary", Seg.intParam "item_id"], "get_itinerary"),
    ([Seg.lit "accommodations"], "list_accommodations"),
    ([Seg.lit "accommodations", Seg.intParam "acc_id"], "get_accommodation"),
    ([Seg.lit "transport"], "list_transport"),
    ([Seg.lit "transport", Seg.intParam "transport_id"], "get_transport"),
    ([Seg.lit "notes"], "list_notes"),
    ([Seg.lit "notes", Seg.intParam "note_id"], "get_note"),
    ([Seg.lit "destinations", Seg.lit "search"], "search_destinations") ]

/-- First registered GET route matching the path, with its raw captures. -/
def dispatchGET (path : List String) : Option (String × List String) :=
  getRoutes.findSome? (fun r => (matchSegs r.1 path).map (fun caps => (r.2, caps)))

/-- Decimal digits of a raw path segment, `int`-coercion of a path
parameter: all-digit nonempty strings parse, anything else is rejected with
a 422 response (sign handling is irrelevant to the studied inputs). -/
def parseIntSeg (s : String) : Option Nat :=
  if s.toList ≠ [] && s.toList.all Char.isDigit then
    some (s.toList.foldl (fun acc c => acc * 10 + (c.toNat - 48)) 0)
  else none

/- ### Create handlers (`routes.py` POST routes)

The inserted row receives the generated id and `created_at = updated_at =
now` (the two `datetime.utcnow` column defaults of the insert). -/

/-- FK constraint on a nullable `destination_id` column as the store checks
it at commit: `NULL` is fine, a non-`NULL` value must reference a row. -/
def fkDestOK (db : DB) : Option Int → Bool
  | none => true
  | some v => (db.getDestination v).isSome

/-- `create_trip`. -/
def create_trip (db : DB) (now : Nat) (p : TripCreate) : ApiResult TripRow × DB :=
  let t : TripRow :=
    { id := db.next_trip_id, name := p.name, description := p.description,
      start_date := p.start_date, end_date := p.end_date,
      created_at := now, updated_at := now }
  (.ok t, { db with trips := db.trips ++ [t], next_trip_id := db.next_trip_id + 1 })

/-- `create_destination`: 404 when the referenced trip does not exist, and
in that case nothing is persisted. -/
def create_destination (db : DB) (now : Nat) (p : DestinationCreate) :
    ApiResult DestinationRow × DB :=
  match db.getTrip p.trip_id with
  | none => (.error (.notFound "Trip not found"), db)
  | some _ =>
    let d : DestinationRow :=
      { id := db.next_destination_id, trip_id := p.trip_id, name := p.name,
        country := p.country, arrival_date := p.arrival_date,
        departure_date := p.departure_date, notes := p.notes,
        created_at := now, updated_at := now }
    (.ok d, { db with destinations := db.destinations ++ [d],
                      next_destination_id := db.next_destination_id + 1 })

/-- `create_itinerary`: 404 when the trip is missing, 404 when a truthy
`destination_id` is dangling; a falsy non-`NULL` `destination_id` (0) slips
past the guard and is caught by the store's FK check instead. -/
def create_itinerary (db : DB) (now : Nat) (p : ItineraryItemCreate) :
    ApiResult ItineraryItemRow × DB :=
  match db.getTrip p.trip_id with
  | none => (.error (.notFound "Trip not found"), db)
  | some _ =>
    if truthyOptInt p.destination_id && (db.getDestination (p.destination_id.getD 0)).isNone then
      (.error (.notFound "Destination not found"), db)
    else if fkDestOK db p.destination_id then
      let r : ItineraryItemRow :=
        { id := db.next_itinerary_id, trip_id := p.trip_id,
          destination_id := p.destination_id, title := p.title,
          description := p.description, date := p.date,
          start_time := p.start_time, end_time := p.end_time,
          location := p.location, cost := p.cost,
          created_at := now, updated_at := now }
      (.ok r, { db with itinerary_items := db.itinerary_items ++ [r],
                        next_itinerary_id := db.next_itinerary_id + 1 })
    else (.error .storageError, db)

/-- `create_accommodation`. -/
def create_accommodation (db : DB) (now : Nat) (p : AccommodationCreate) :
    ApiResult AccommodationRow × DB :=
  match db.getTrip p.trip_id with
  | none => (.error (.notFound "Trip not found"), db)
  | some _ =>
    let a : AccommodationRow :=
      { id := db.next_accommodation_id, trip_id := p.trip_id, name := p.name,
        address := p.address, check_in := p.check_in, check_out := p.check_out,
        booking_ref := p.booking_ref, notes := p.notes,
        created_at := now, updated_at := now }
    (.ok a, { db with accommodations := db.accommodations ++ [a],
                      next_accommodation_id := db.next_accommodation_id + 1 })

/-- `create_transport`. -/
def create_transport (db : DB) (now : Nat) (p : TransportCreate) :
    ApiResult TransportRow × DB :=
  match db.getTrip p.trip_id with
  | none => (.error (.notFound "Trip not found"), db)
  | some _ =>
    let t : TransportRow :=
      { id := db.next_transport_id, trip_id := p.trip_id, type := p.type,
        provider := p.provider, departure_location := p.departure_location,
        arrival_location := p.arrival_location, departure_date := p.departure_date,
        arrival_date := p.arrival_date, booking_ref := p.booking_ref,
        notes := p.notes, created_at := now, updated_at := now }
    (.ok t, { db with transports := db.transports ++ [t],
                      next_transport_id := db.next_transport_id + 1 })

/-- `create_note`. -/
def create_note (db : DB) (now : Nat) (p : NoteCreate) : ApiResult NoteRow × DB :=
  match db.getTrip p.trip_id with
  | none => (.error (.notFound "Trip not found"), db)
  | some _ =>
    let n : NoteRow :=
      { id := db.next_note_id, trip_id := p.trip_id, title := p.title,
        content := p.content, created_at := now, updated_at := now }
    (.ok n, { db with notes := db.notes ++ [n],
                      next_note_id := db.next_note_id + 1 })

/- ### Delete handlers (`routes.py` DELETE routes)

`delete_trip` runs the ORM cascade `all, delete-orphan` declared on the five
`Trip` collections: children of the trip are deleted with it.  Deleting a
`Destination` fires the declared `ondelete="SET NULL"` of
`itinerary_items.destination_id`: referencing items survive with the
reference cleared (their `updated_at` is untouched — the store action is not
an ORM update). -/

/-- `delete_trip`. -/
def delete_trip (db : DB) (trip_id : Int) : ApiResult Unit × DB :=
  match db.getTrip trip_id with
  | none => (.error (.notFound "Trip not found"), db)
  | some t =>
    let deadDests : List Int := (db.destinations.filter (fun d => d.trip_id == t.id)).map (·.id)
    (.ok (), { db with
      trips := db.trips.filter (fun x => x.id != t.id),
      destinations := db.destinations.filter (fun d => d.trip_id != t.id),
      itinerary_items := (db.itinerary_items.filter (fun i => i.trip_id != t.id)).map
        (fun i => match i.destination_id with
          | some d => if deadDests.contains d then { i with destination_id := none } else i
          | none => i),
      accommodations := db.accommodations.filter (fun a => a.trip_id != t.id),
      transports := db.transports.filter (fun x => x.trip_id != t.id),
      notes := db.notes.filter (fun n => n.trip_id != t.id) })

/-- `delete_destination`. -/
def delete_destination (db : DB) (destination_id : Int) : ApiResult Unit × DB :=
  match db.getDestination destination_id with
  | none => (.error (.notFound "Destination not found"), db)
  | some d =>
    (.ok (), { db with
      destinations := db.destinations.filter (fun x => x.id != d.id),
      itinerary_items := db.itinerary_items.map
        (fun i => if i.destination_id == some d.id then { i with destination_id := none } else i) })

/-- `delete_itinerary`. -/
def delete_itinerary (db : DB) (item_id : Int) : ApiResult Unit × DB :=
  match db.getItineraryItem item_id with
  | none => (.error (.notFound "Itinerary item not found"), db)
  | some i =>
    (.ok (), { db with itinerary_items := db.itinerary_items.filter (fun x => x.id != i.id) })

/-- `delete_accommodation`. -/
def delete_accommodation (db : DB) (acc_id : Int) : ApiResult Unit × DB :=
  match db.getAccommodation acc_id with
  | none => (.error (.notFound "Accommodation not found"), db)
  | some a =>
    (.ok (), { db with accommodations := db.accommodations.filter (fun x => x.id != a.id) })

/-- `delete_transport`. -/
def delete_transport (db : DB) (transport_id : Int) : ApiResult Unit × DB :=
  match db.getTransport transport_id with
  | none => (.error (.notFound "Transport not found"), db)
  | some t =>
    (.ok (), { db with transports := db.transports.filter (fun x => x.id != t.id) })

/-- `delete_note`. -/
def delete_note (db : DB) (note_id : Int) : ApiResult Unit × DB :=
  match db.getNote note_id with
  | none => (.error (.notFound "Note not found"), db)
  | some n =>
    (.ok (), { db with notes := db.notes.filter (fun x => x.id != n.id) })

/- ### Update handlers (`routes.py` PUT routes)

Each handler mirrors the source exactly: fetch-or-404, then for the schemas
that carry a `trip_id`/`destination_id` the guard
`if "x" in data and data["x"] and not db.get(...)` (Python truthiness: an
explicit `null` or `0` skips the existence check), then the
`model_dump(exclude_unset)` setattr loop.  `db.commit()` emits an UPDATE
only when some supplied value differs from the stored one; the UPDATE sets
`updated_at = now` (`onupdate`) and the store rejects it when it violates a
NOT NULL or FK constraint, leaving the row unchanged. -/

/-- The guard `"trip_id" in data and data["trip_id"] and not
db.get(models.Trip, data["trip_id"])`. -/
def truthyMissingTrip (db : DB) : Option (Option Int) → Bool
  | some (some t) => t != 0 && (db.getTrip t).isNone
  | _ => false

/-- The guard `"destination_id" in data and data["destination_id"] and not
db.get(models.Destination, data["destination_id"])`. -/
def truthyMissingDest (db : DB) : Option (Option Int) → Bool
  | some (some d) => d != 0 && (db.getDestination d).isNone
  | _ => false

/-- `update_trip`. -/
def update_trip (db : DB) (now : Nat) (trip_id : Int) (p : TripUpdate) :
    ApiResult TripRow × DB :=
  match db.getTrip trip_id with
  | none => (.error (.notFound "Trip not found"), db)
  | some t =>
    let name' := p.name.getD (some t.name)
    let description' := p.description.getD t.description
    let start_date' := p.start_date.getD t.start_date
    let end_date' := p.end_date.getD t.end_date
    if name' = some t.name ∧ description' = t.description ∧
       start_date' = t.start_date ∧ end_date' = t.end_date then
      (.ok t, db)
    else
      match name' with
      | none => (.error .storageError, db)
      | some nm =>
        let r : TripRow :=
          { t with
            name := nm, description := description',
            start_date := start_date', end_date := end_date', updated_at := now }
        (.ok r, { db with trips := db.trips.map (fun x => if x.id == t.id then r else x) })

/-- `update_destination` (its schema has no `trip_id`, so no parent guard
and the parent link can never change). -/
def update_destination (db : DB) (now : Nat) (destination_id : Int) (p : DestinationUpdate) :
    ApiResult DestinationRow × DB :=
  match db.getDestination destination_id with
  | none => (.error (.notFound "Destination not found"), db)
  | some d =>
    let name' := p.name.getD (some d.name)
    let country' := p.country.getD d.country
    let arrival_date' := p.arrival_date.getD d.arrival_date
    let departure_date' := p.departure_date.getD d.departure_date
    let notes' := p.notes.getD d.notes
    if name' = some d.name ∧ country' = d.country ∧ arrival_date' = d.arrival_date ∧
       departure_date' = d.departure_date ∧ notes' = d.notes then
      (.ok d, db)
    else
      match name' with
      | none => (.error .storageError, db)
      | some nm =>
        let r : DestinationRow :=
          { d with
            name := nm, country := country', arrival_date := arrival_date',
            departure_date := departure_date', notes := notes', updated_at := now }
        (.ok r, { db with
            destinations := db.destinations.map (fun x => if x.id == d.id then r else x) })

/-- `update_itinerary`. -/
def update_itinerary (db : DB) (now : Nat) (item_id : Int) (p : ItineraryItemUpdate) :
    ApiResult ItineraryItemRow × DB :=
  match db.getItineraryItem item_id with
  | none => (.error (.notFound "Itinerary item not found"), db)
  | some i =>
    if truthyMissingTrip db p.trip_id then (.error (.notFound "Trip not found"), db)
    else if truthyMissingDest db p.destination_id then
      (.error (.notFound "Destination not found"), db)
    else
      let title' := p.title.getD (some i.title)
      let description' := p.description.getD i.description
      let date' := p.date.getD i.date
      let start_time' := p.start_time.getD i.start_time
      let end_time' := p.end_time.getD i.end_time
      let location' := p.location.getD i.location
      let cost' := p.cost.getD i.cost
      let dest' := p.destination_id.getD i.destination_id
      let trip' := p.trip_id.getD (some i.trip_id)
      if title' = some i.title ∧ description' = i.description ∧ date' = i.date ∧
         start_time' = i.start_time ∧ end_time' = i.end_time ∧ location' = i.location ∧
         cost' = i.cost ∧ dest' = i.destination_id ∧ trip' = some i.trip_id then
        (.ok i, db)
      else
        match title', trip' with
        | some ttl, some tid =>
          if (db.getTrip tid).isSome && fkDestOK db dest' then
            let r : ItineraryItemRow :=
              { i with
                title := ttl, description := description', date := date',
                start_time := start_time', end_time := end_time', location := location',
                cost := cost', destination_id := dest', trip_id := tid, updated_at := now }
            (.ok r, { db with
                itinerary_items := db.itinerary_items.map (fun x => if x.id == i.id then r else x) })
          else (.error .storageError, db)
        | _, _ => (.error .storageError, db)

/-- `update_accommodation`. -/
def update_accommodation (db : DB) (now : Nat) (acc_id : Int) (p : AccommodationUpdate) :
    ApiResult AccommodationRow × DB :=
  match db.getAccommodation acc_id with
  | none => (.error (.notFound "Accommodation not found"), db)
  | some a =>
    if truthyMissingTrip db p.trip_id then (.error (.notFound "Trip not found"), db)
    else
      let name' := p.name.getD (some a.name)
      let address' := p.address.getD a.address
      let check_in' := p.check_in.getD a.check_in
      let check_out' := p.check_out.getD a.check_out
      let booking_ref' := p.booking_ref.getD a.booking_ref
      let notes' := p.notes.getD a.notes
      let trip' := p.trip_id.getD (some a.trip_id)
      if name' = some a.name ∧ address' = a.address ∧ check_in' = a.check_in ∧
         check_out' = a.check_out ∧ booking_ref' = a.booking_ref ∧ notes' = a.notes ∧
         trip' = some a.trip_id then
        (.ok a, db)
      else
        match name', trip' with
        | some nm, some tid =>
          if (db.getTrip tid).isSome then
            let r : AccommodationRow :=
              { a with
                name := nm, address := address', check_in := check_in',
                check_out := check_out', booking_ref := booking_ref', notes := notes',
                trip_id := tid, updated_at := now }
            (.ok r, { db with
                accommodations := db.accommodations.map (fun x => if x.id == a.id then r else x) })
          else (.error .storageError, db)
        | _, _ => (.error .storageError, db)

/-- `update_transport`. -/
def update_transport (db : DB) (now : Nat) (transport_id : Int) (p : TransportUpdate) :
    ApiResult TransportRow × DB :=
  match db.getTransport transport_id with
  | none => (.error (.notFound "Transport not found"), db)
  | some t =>
    if truthyMissingTrip db p.trip_id then (.error (.notFound "Trip not found"), db)
    else
      let type' := p.type.getD (some t.type)
      let provider' := p.provider.getD t.provider
      let departure_location' := p.departure_location.getD t.departure_location
      let arrival_location' := p.arrival_location.getD t.arrival_location
      let departure_date' := p.departure_date.getD t.departure_date
      let arrival_date' := p.arrival_date.getD t.arrival_date
      let booking_ref' := p.booking_ref.getD t.booking_ref
      let notes' := p.notes.getD t.notes
      let trip' := p.trip_id.getD (some t.trip_id)
      if type' = some t.type ∧ provider' = t.provider ∧
         departure_location' = t.departure_location ∧
         arrival_location' = t.arrival_location ∧ departure_date' = t.departure_date ∧
         arrival_date' = t.arrival_date ∧ booking_ref' = t.booking_ref ∧
         notes' = t.notes ∧ trip' = some t.trip_id then
        (.ok t, db)
      else
        match type', trip' with
        | some ty, some tid =>
          if (db.getTrip tid).isSome then
            let r : TransportRow :=
              { t with
                type := ty, provider := provider',
                departure_location := departure_location',
                arrival_location := arrival_location', departure_date := departure_date',
                arrival_date := arrival_date', booking_ref := booking_ref',
                notes := notes', trip_id := tid, updated_at := now }
            (.ok r, { db with
                transports := db.transports.map (fun x => if x.id == t.id then r else x) })
          else (.error .storageError, db)
        | _, _ => (.error .storageError, db)

/-- `update_note`. -/
def update_note (db : DB) (now : Nat) (note_id : Int) (p : NoteUpdate) :
    ApiResult NoteRow × DB :=
  match db.getNote note_id with
  | none => (.error (.notFound "Note not found"), db)
  | some n =>
    if truthyMissingTrip db p.trip_id then (.error (.notFound "Trip not found"), db)
    else
      let title' := p.title.getD (some n.title)
      let content' := p.content.getD n.content
      let trip' := p.trip_id.getD (some n.trip_id)
      if title' = some n.title ∧ content' = n.content ∧ trip' = some n.trip_id then
        (.ok n, db)
      else
        match title', trip' with
        | some ttl, some tid =>
          if (db.getTrip tid).isSome then
            let r : NoteRow :=
              { n with
                title := ttl, content := content', trip_id := tid,
                updated_at := now }
            (.ok r, { db with
                notes := db.notes.map (fun x => if x.id == n.id then r else x) })
          else (.error .storageError, db)
        | _, _ => (.error .storageError, db)

/- ### List handlers (`routes.py` GET collection routes, `apply_pagination`)

The generated SQL is `SELECT … [WHERE parent = v] ORDER BY created_at DESC
LIMIT … OFFSET …` plus a `COUNT` of the filtered query; the model sorts the
filtered rows by `created_at` descending and slices.  The filter guard is
`if trip_id:` — Python truthiness, so a filter value of `0` is treated like
no filter. -/

/-- Descending creation-time order (`ORDER BY created_at DESC`). -/
def createdDesc {ρ : Type} (f : ρ → Nat) (a b : ρ) : Prop := f b ≤ f a

instance {ρ : Type} (f : ρ → Nat) : DecidableRel (createdDesc f) :=
  fun _ _ => Nat.decLe _ _

instance {ρ : Type} (f : ρ → Nat) : IsTotal ρ (createdDesc f) :=
  ⟨fun a b => (Nat.le_total (f a) (f b)).symm⟩

instance {ρ : Type} (f : ρ → Nat) : IsTrans ρ (createdDesc f) :=
  ⟨fun _ _ _ h1 h2 => Nat.le_trans h2 h1⟩

/-- `order_by(created_at.desc())` on a table. -/
def sortByCreatedDesc {ρ : Type} (f : ρ → Nat) (rows : List ρ) : List ρ :=
  List.insertionSort (createdDesc f) rows

/-- `apply_pagination` / `_paginate`: `total = q.count()`, items are
`q.offset(offset).limit(limit).all()`. -/
def apply_pagination {ρ : Type} (rows : List ρ) (offset limit : Nat) : List ρ × Nat :=
  ((rows.drop offset).take limit, rows.length)

/-- The repeated `if trip_id: q = q.filter(X.trip_id == trip_id)` pattern. -/
def filterByTripId {ρ : Type} (tid : ρ → Int) (flt : Option Int) (rows : List ρ) : List ρ :=
  match flt with
  | some v => if v != 0 then rows.filter (fun r => tid r == v) else rows
  | none => rows

/-- `if destination_id: q = q.filter(ItineraryItem.destination_id == destination_id)`
(the SQL equality is against the nullable column, `NULL` never equal). -/
def filterByDestId (flt : Option Int) (rows : List ItineraryItemRow) : List ItineraryItemRow :=
  match flt with
  | some v => if v != 0 then rows.filter (fun r => r.destination_id == some v) else rows
  | none => rows

/-- `list_trips`. -/
def list_trips (db : DB) (offset limit : Nat) : List TripRow × Nat :=
  apply_pagination (sortByCreatedDesc (·.created_at) db.trips) offset limit

/-- `list_destinations`. -/
def list_destinations (db : DB) (trip_id : Option Int) (offset limit : Nat) :
    List DestinationRow × Nat :=
  apply_pagination
    (sortByCreatedDesc (·.created_at) (filterByTripId (·.trip_id) trip_id db.destinations))
    offset limit

/-- `list_itinerary`. -/
def list_itinerary (db : DB) (trip_id destination_id : Option Int) (offset limit : Nat) :
    List ItineraryItemRow × Nat :=
  apply_pagination
    (sortByCreatedDesc (·.created_at)
      (filterByDestId destination_id (filterByTripId (·.trip_id) trip_id db.itinerary_items)))
    offset limit

/-- `list_accommodations`. -/
def list_accommodations (db : DB) (trip_id : Option Int) (offset limit : Nat) :
    List AccommodationRow × Nat :=
  apply_pagination
    (sortByCreatedDesc (·.created_at) (filterByTripId (·.trip_id) trip_id db.accommodations))
    offset limit

/-- `list_transport`. -/
def list_transport (db : DB) (trip_id : Option Int) (offset limit : Nat) :
    List TransportRow × Nat :=
  apply_pagination
    (sortByCreatedDesc (·.created_at) (filterByTripId (·.trip_id) trip_id db.transports))
    offset limit

/-- `list_notes`. -/
def list_notes (db : DB) (trip_id : Option Int) (offset limit : Nat) :
    List NoteRow × Nat :=
  apply_pagination
    (sortByCreatedDesc (·.created_at) (filterByTripId (·.trip_id) trip_id db.notes))
    offset limit

/- ### The transition system over the mutating HTTP operations -/

/-- One mutating HTTP request (create/update/delete on any entity), with its
already-parsed body. -/
inductive Request where
  | createTrip (p : TripCreate)
  | updateTrip (id : Int) (p : TripUpdate)
  | deleteTrip (id : Int)
  | createDestination (p : DestinationCreate)
  | updateDestination (id : Int) (p : DestinationUpdate)
  | deleteDestination (id : Int)
  | createItinerary (p : ItineraryItemCreate)
  | updateItinerary (id : Int) (p : ItineraryItemUpdate)
  | deleteItinerary (id : Int)
  | createAccommodation (p : AccommodationCreate)
  | updateAccommodation (id : Int) (p : AccommodationUpdate)
  | deleteAccommodation (id : Int)
  | createTransport (p : TransportCreate)
  | updateTransport (id : Int) (p : TransportUpdate)
  | deleteTransport (id : Int)
  | createNote (p : NoteCreate)
  | updateNote (id : Int) (p : NoteUpdate)
  | deleteNote (id : Int)
  deriving DecidableEq, Repr

/-- The state after handling one request at time `now` (failed requests
leave the store unchanged). -/
def step (db : DB) (now : Nat) : Request → DB
  | .createTrip p => (create_trip db now p).2
  | .updateTrip i p => (update_trip db now i p).2
  | .deleteTrip i => (delete_trip db i).2
  | .createDestination p => (create_destination db now p).2
  | .updateDestination i p => (update_destination db now i p).2
  | .deleteDestination i => (delete_destination db i).2
  | .createItinerary p => (create_itinerary db now p).2
  | .updateItinerary i p => (update_itinerary db now i p).2
  | .deleteItinerary i => (delete_itinerary db i).2
  | .createAccommodation p => (create_accommodation db now p).2
  | .updateAccommodation i p => (update_accommodation db now i p).2
  | .deleteAccommodation i => (delete_accommodation db i).2
  | .createTransport p => (create_transport db now p).2
  | .updateTransport i p => (update_transport db now i p).2
  | .deleteTransport i => (delete_transport db i).2
  | .createNote p => (create_note db now p).2
  | .updateNote i p => (update_note db now i p).2
  | .deleteNote i => (delete_note db i).2

/-- States reachable from the fresh store by any sequence of mutating HTTP
operations. -/
inductive Reachable : DB → Prop where
  | init : Reachable emptyDB
  | step {db : DB} (h : Reachable db) (now : Nat) (r : Request) : Reachable (step db now r)

/-- A trip id is live when some stored trip carries it. -/
def tripLive (trips : List TripRow) (tid : Int) : Prop :=
  trips.any (fun t => t.id == tid) = true

/-- Referential integrity of the five parent links: every child row's
`trip_id` names an existing trip. -/
def parentsOK (db : DB) : Prop :=
  (∀ d ∈ db.destinations, tripLive db.trips d.trip_id) ∧
  (∀ i ∈ db.itinerary_items, tripLive db.trips i.trip_id) ∧
  (∀ a ∈ db.accommodations, tripLive db.trips a.trip_id) ∧
  (∀ t ∈ db.transports, tripLive db.trips t.trip_id) ∧
  (∀ n ∈ db.notes, tripLive db.trips n.trip_id)

/-- No child row of any of the five tables references `tid`. -/
def noChildrenOf (db : DB) (tid : Int) : Prop :=
  (∀ d ∈ db.destinations, d.trip_id ≠ tid) ∧
  (∀ i ∈ db.itinerary_items, i.trip_id ≠ tid) ∧
  (∀ a ∈ db.accommodations, a.trip_id ≠ tid) ∧
  (∀ t ∈ db.transports, t.trip_id ≠ tid) ∧
  (∀ n ∈ db.notes, n.trip_id ≠ tid)

/- ### Basic lemmas -/

/-- Python `"" in s` is always true; the model's substring test agrees. -/
theorem containsCI_empty_needle (s : String) : containsCI s "" = true := by
  unfold containsCI lowChars
  simp only [String.toList]
  generalize s.data.map Char.toLower = l
  induction l with
  | nil => rfl
  | cons c rest ih => simp [subAt, ih, List.isPrefixOf]

/-- Liveness of a trip id unfolded to an existential. -/
theorem tripLive_iff {trips : List TripRow} {k : Int} :
    tripLive trips k ↔ ∃ t ∈ trips, t.id = k := by
  unfold tripLive
  simp [List.any_eq_true]

/-- `db.get(models.Trip, k)` succeeds exactly when `k` is live. -/
theorem getTrip_isSome_iff {db : DB} {k : Int} :
    (db.getTrip k).isSome = true ↔ tripLive db.trips k := by
  unfold DB.getTrip
  rw [tripLive_iff]
  simp [List.find?_isSome]

/-- Claim C3: for every child entity (Destination, ItineraryItem,
Accommodation, Transport, Note), a create request whose `trip_id` does not
identify an existing Trip yields the not-found failure (404 "Trip not
found") and leaves the store unchanged — no row is persisted. -/
theorem C3_create_child_missing_trip_404 (db : DB) (now : Nat) :
    (∀ p : DestinationCreate, db.getTrip p.trip_id = none →
      create_destination db now p = (.error (.notFound "Trip not found"), db)) ∧
    (∀ p : ItineraryItemCreate, db.getTrip p.trip_id = none →
      create_itinerary db now p = (.error (.notFound "Trip not found"), db)) ∧
    (∀ p : AccommodationCreate, db.getTrip p.trip_id = none →
      create_accommodation db now p = (.error (.notFound "Trip not found"), db)) ∧
    (∀ p : TransportCreate, db.getTrip p.trip_id = none →
      create_transport db now p = (.error (.notFound "Trip not found"), db)) ∧
    (∀ p : NoteCreate, db.getTrip p.trip_id = none →
      create_note db now p = (.error (.notFound "Trip not found"), db)) := by
  refine ⟨fun p h => ?_, fun p h => ?_, fun p h => ?_, fun p h => ?_, fun p h => ?_⟩ <;>
    simp [create_destination, create_itinerary, create_accommodation,
      create_transport, create_note, h]

/-- Witness for C3 at a concrete input: creating a destination for trip 1 in
the empty store fails with 404 and persists nothing. -/
theorem C3_witness :
    create_destination emptyDB 0 { name := "Paris", trip_id := 1 } =
      (.error (.notFound "Trip not found"), emptyDB) :=
  (C3_create_child_missing_trip_404 emptyDB 0).1 { name := "Paris", trip_id := 1 } rfl

/- ### Mock search: spec-side characterization -/

/-- The claim's description of a matching record: the query is a
case-insensitive substring of the name or of a non-null iata code, and when
a country filter is supplied, it is a case-insensitive substring of the
record's country. -/
def searchSpecMatch (q : String) (country : Option String) (d : MockDestination) : Bool :=
  (containsCI d.name q || (d.iata.elim false (fun code => containsCI code q)))
    && (country.elim true (fun c => containsCI d.country c))

/-- The code's country guard agrees with the claim's: the only divergence
candidate is an empty-string filter, which Python truthiness skips and which
is a substring of everything anyway. -/
theorem countryGuard_eq (cty : String) (c : Option String) :
    (match c with
      | some s => if s != "" then containsCI cty s else true
      | none => true)
      = c.elim true (fun s => containsCI cty s) := by
  cases c with
  | none => rfl
  | some s =>
    by_cases h : s = ""
    · subst h
      simp [containsCI_empty_needle]
    · simp [h]

/-- On records whose iata code is absent or nonempty (all six records), the
code's predicate equals the claim's. -/
theorem mockMatch_eq_spec (q : String) (c : Option String) (d : MockDestination)
    (h : d.iata = none ∨ ∃ s, d.iata = some s ∧ s ≠ "") :
    mockMatch q c d = searchSpecMatch q c d := by
  unfold mockMatch searchSpecMatch
  rw [countryGuard_eq]
  rcases h with h | ⟨s, hs, hne⟩
  · rw [h]
    rfl
  · rw [hs]
    simp only [Option.elim]
    congr 2
    simp [hne]

/-- Claim C7: over the fixed six-record dataset the mock search returns
exactly the records matching the claim's predicate, with `total` the number
of returned records; query "Par" with no country filter returns exactly the
Paris/France record, query "CDG" returns Paris, and query "tokyo" with
country "usa" returns zero results. -/
theorem C7_mock_search :
    (∀ q c, search_destinations q c =
      (MOCK_DESTINATIONS.filter (searchSpecMatch q c),
        (MOCK_DESTINATIONS.filter (searchSpecMatch q c)).length)) ∧
    (∀ q c, (search_destinations q c).2 = (search_destinations q c).1.length) ∧
    search_destinations "Par" none =
      ([⟨"Paris", "France", some "Île-de-France", some "CDG"⟩], 1) ∧
    (search_destinations "CDG" none).1.map (·.name) = ["Paris"] ∧
    search_destinations "tokyo" (some "usa") = ([], 0) := by
  have hfilter : ∀ q c, MOCK_DESTINATIONS.filter (mockMatch q c) =
      MOCK_DESTINATIONS.filter (searchSpecMatch q c) := by
    intro q c
    apply List.filter_congr
    intro d hd
    apply mockMatch_eq_spec
    fin_cases hd <;> simp [MOCK_DESTINATIONS]
  refine ⟨fun q c => ?_, fun q c => rfl, by decide, by decide, by decide⟩
  unfold search_destinations
  rw [hfilter]

/-- Claim C8 (code evaluated at the failing input): a GET for path
`/destinations/search` is captured by `/destinations/{destination_id}`,
which was registered first; the raw capture "search" then fails `int`
coercion (a 422), so the mock search handler never runs — even though the
search route is registered and its own pattern does match the path.  The
claim that the request is dispatched to the search provider is false for
this route table. -/
theorem C8_search_route_shadowed :
    dispatchGET ["destinations", "search"] = some ("get_destination", ["search"]) ∧
    parseIntSeg "search" = none ∧
    matchSegs [Seg.lit "destinations", Seg.lit "search"] ["destinations", "search"]
      = some [] ∧
    getRoutes.map (·.2) =
      ["health_check", "list_trips", "get_trip", "list_destinations",
       "get_destination", "list_itinerary", "get_itinerary", "list_accommodations",
       "get_accommodation", "list_transport", "get_transport", "list_notes",
       "get_note", "search_destinations"] := by
  refine ⟨by decide, by decide, by decide, by decide⟩

/-- Claim C1: deleting a Destination referenced by an ItineraryItem leaves
the item in existence with its `destination_id` set to NULL (the declared
`ondelete="SET NULL"`), every other field of the item unchanged; the
destination row itself is gone. -/
theorem C1_delete_destination_nulls_reference (db : DB) (did : Int)
    (i : ItineraryItemRow) (hd : (db.getDestination did).isSome = true)
    (hi : i ∈ db.itinerary_items) (href : i.destination_id = some did) :
    (delete_destination db did).1 = .ok () ∧
    { i with destination_id := none } ∈ (delete_destination db did).2.itinerary_items ∧
    (∀ x ∈ (delete_destination db did).2.destinations, x.id ≠ did) := by
  obtain ⟨d, hfind⟩ := Option.isSome_iff_exists.mp hd
  have hdid : d.id = did := by
    have := List.find?_some hfind
    simpa using this
  unfold delete_destination
  rw [hfind]
  refine ⟨rfl, ?_, ?_⟩
  · simp only []
    refine List.mem_map.mpr ⟨i, hi, ?_⟩
    rw [href, hdid]
    simp
  · intro x hx
    have hpred := List.of_mem_filter hx
    simp only [bne_iff_ne, ne_eq] at hpred
    rw [hdid] at hpred
    exact hpred

/-- Witness for C1: a store with one trip, one destination and one
itinerary item referencing it. -/
def dbC1 : DB :=
  { emptyDB with
    trips := [⟨1, "Japan 2024", none, none, none, 1, 1⟩],
    destinations := [⟨1, 1, "Kyoto", some "Japan", none, none, none, 2, 2⟩],
    itinerary_items := [⟨1, 1, some 1, "Temple walk", none, none, none, none, none, none, 3, 3⟩],
    next_trip_id := 2, next_destination_id := 2, next_itinerary_id := 2 }

/-- Witness for C1 at a concrete input. -/
theorem C1_witness :
    (delete_destination dbC1 1).1 = .ok () ∧
    (⟨1, 1, none, "Temple walk", none, none, none, none, none, none, 3, 3⟩ : ItineraryItemRow)
      ∈ (delete_destination dbC1 1).2.itinerary_items ∧
    (∀ x ∈ (delete_destination dbC1 1).2.destinations, x.id ≠ 1) :=
  C1_delete_destination_nulls_reference dbC1 1
    ⟨1, 1, some 1, "Temple walk", none, none, none, none, none, none, 3, 3⟩
    (by decide) (by decide) rfl

/-- Claim C10: for the update routes whose schema accepts a `trip_id`
(ItineraryItem, Accommodation, Transport, Note), a body with `trip_id`
explicitly null passes validation (no 422), skips the parent-existence
guard (truthiness, so no 404), and the attempted write of NULL into the
non-nullable `trip_id` column surfaces only as a storage-level failure,
leaving the store unchanged. -/
theorem C10_null_trip_id_update (db : DB) (now : Nat) :
    (∀ id i, db.getItineraryItem id = some i →
      update_itinerary db now id { trip_id := some none } = (.error .storageError, db)) ∧
    (∀ id a, db.getAccommodation id = some a →
      update_accommodation db now id { trip_id := some none } = (.error .storageError, db)) ∧
    (∀ id t, db.getTransport id = some t →
      update_transport db now id { trip_id := some none } = (.error .storageError, db)) ∧
    (∀ id n, db.getNote id = some n →
      update_note db now id { trip_id := some none } = (.error .storageError, db)) ∧
    validItineraryItemUpdate { trip_id := some none } = true ∧
    validAccommodationUpdate { trip_id := some none } = true ∧
    validTransportUpdate { trip_id := some none } = true ∧
    validNoteUpdate { trip_id := some none } = true := by
  refine ⟨fun id i h => ?_, fun id a h => ?_, fun id t h => ?_, fun id n h => ?_,
    rfl, rfl, rfl, rfl⟩ <;>
    simp [update_itinerary, update_accommodation, update_transport, update_note,
      h, truthyMissingTrip, truthyMissingDest]

/-- Witness for C10 at a concrete input: a store with one trip and one note;
updating the note with an explicit null `trip_id` is a storage failure. -/
def dbC10 : DB :=
  { emptyDB with
    trips := [⟨1, "Japan 2024", none, none, none, 1, 1⟩],
    notes := [⟨1, 1, "Packing", some "bring socks", 2, 2⟩],
    next_trip_id := 2, next_note_id := 2 }

/-- Witness for C10 at a concrete input. -/
theorem C10_witness :
    update_note dbC10 9 1 { trip_id := some none } = (.error .storageError, dbC10) :=
  ((C10_null_trip_id_update dbC10 9).2.2.2.1) 1 ⟨1, 1, "Packing", some "bring socks", 2, 2⟩ rfl

/- ### Pagination lemmas -/

/-- Sorting does not change the row count. -/
theorem sort_length {ρ : Type} (f : ρ → Nat) (rows : List ρ) :
    (sortByCreatedDesc f rows).length = rows.length :=
  (List.perm_insertionSort _ rows).length_eq

/-- A page of a sorted table is sorted. -/
theorem paginate_sorted {ρ : Type} (f : ρ → Nat) (rows : List ρ) (o l : Nat) :
    List.Sorted (createdDesc f) ((apply_pagination (sortByCreatedDesc f rows) o l).1) := by
  have hs : List.Sorted (createdDesc f) (sortByCreatedDesc f rows) :=
    List.sorted_insertionSort _ rows
  exact hs.sublist ((List.take_sublist _ _).trans (List.drop_sublist _ _))

/-- Every returned page item comes from the underlying row list. -/
theorem paginate_mem {ρ : Type} {f : ρ → Nat} {rows : List ρ} {o l : Nat} {x : ρ}
    (h : x ∈ (apply_pagination (sortByCreatedDesc f rows) o l).1) : x ∈ rows := by
  have h1 : x ∈ sortByCreatedDesc f rows :=
    ((List.take_sublist _ _).trans (List.drop_sublist _ _)).mem h
  exact (List.perm_insertionSort _ rows).mem_iff.mp h1

/-- A store with one trip and one destination attached to it. -/
def dbC6 : DB :=
  { emptyDB with
    trips := [⟨1, "Japan 2024", none, none, none, 1, 1⟩],
    destinations := [⟨1, 1, "Kyoto", some "Japan", none, none, none, 2, 2⟩],
    next_trip_id := 2, next_destination_id := 2 }

/-- Claim C6 counterexample: with a supplied parent filter of `0` (an
accepted query value — the filter parameter carries no `ge` bound), the
handler returns every row, although no row has `trip_id = 0`; the returned
items are not "exactly the rows whose parent id equals the supplied
filter". -/
theorem C6_counterexample_zero_filter :
    list_destinations dbC6 (some 0) 0 25 =
      ([⟨1, 1, "Kyoto", some "Japan", none, none, none, 2, 2⟩], 1) ∧
    dbC6.destinations.filter (fun r => r.trip_id == 0) = [] := by
  refine ⟨by decide, by decide⟩

/-- Claim C6 (amended): the truthiness guard `if trip_id:` makes a filter
value of `0` behave exactly like an absent filter; for every truthy
(nonzero) filter the returned items are the matching rows sorted by
`created_at` descending with `offset` dropped and at most `limit` taken,
and `total` counts all matching rows, independent of `offset`/`limit`.
With no filter (or a `0` filter) the same holds over all rows. -/
theorem C6_amended_list_pagination :
    (∀ (ρ : Type) (tid : ρ → Int) (v : Int) (rows : List ρ), v ≠ 0 →
      filterByTripId tid (some v) rows = rows.filter (fun r => tid r == v)) ∧
    (∀ (ρ : Type) (tid : ρ → Int) (rows : List ρ),
      filterByTripId tid none rows = rows) ∧
    (∀ (ρ : Type) (tid : ρ → Int) (rows : List ρ),
      filterByTripId tid (some 0) rows = rows) ∧
    (∀ db v o l, v ≠ 0 →
      list_destinations db (some v) o l =
        (((sortByCreatedDesc (·.created_at)
            (db.destinations.filter (fun r => r.trip_id == v))).drop o).take l,
          (db.destinations.filter (fun r => r.trip_id == v)).length)) ∧
    (∀ db o l,
      list_destinations db none o l =
        (((sortByCreatedDesc (·.created_at) db.destinations).drop o).take l,
          db.destinations.length)) ∧
    (∀ db o l, list_destinations db (some 0) o l = list_destinations db none o l) ∧
    (∀ db v o l (x : DestinationRow), v ≠ 0 →
      x ∈ (list_destinations db (some v) o l).1 → x ∈ db.destinations ∧ x.trip_id = v) ∧
    (∀ db fl o l, List.Sorted (createdDesc (·.created_at)) (list_destinations db fl o l).1) ∧
    (∀ db fl o l o2 l2, (list_destinations db fl o l).2 = (list_destinations db fl o2 l2).2) ∧
    (∀ db o l, list_trips db o l =
      (((sortByCreatedDesc (·.created_at) db.trips).drop o).take l, db.trips.length)) ∧
    (∀ db o l, list_accommodations db (some 0) o l = list_accommodations db none o l) ∧
    (∀ db o l, list_transport db (some 0) o l = list_transport db none o l) ∧
    (∀ db o l, list_notes db (some 0) o l = list_notes db none o l) ∧
    (∀ db o l, list_itinerary db (some 0) (some 0) o l = list_itinerary db none none o l) := by
  have hfil : ∀ (ρ : Type) (tid : ρ → Int) (v : Int) (rows : List ρ), v ≠ 0 →
      filterByTripId tid (some v) rows = rows.filter (fun r => tid r == v) := by
    intro ρ tid v rows hv
    simp [filterByTripId, hv]
  refine ⟨hfil, fun ρ tid rows => rfl, fun ρ tid rows => rfl,
    fun db v o l hv => ?_, fun db o l => ?_, fun db o l => rfl,
    fun db v o l x hv hx => ?_, fun db fl o l => ?_, fun db fl o l o2 l2 => rfl,
    fun db o l => ?_, fun db o l => rfl, fun db o l => rfl, fun db o l => rfl,
    fun db o l => rfl⟩
  · unfold list_destinations
    rw [hfil _ _ _ _ hv]
    simp [apply_pagination, sort_length]
  · unfold list_destinations filterByTripId
    simp [apply_pagination, sort_length]
  · have hx' : x ∈ (apply_pagination
        (sortByCreatedDesc (·.created_at)
          (filterByTripId (·.trip_id) (some v) db.destinations)) o l).1 := hx
    have hmem := paginate_mem hx'
    rw [hfil _ _ _ _ hv] at hmem
    refine ⟨List.mem_of_mem_filter hmem, ?_⟩
    have := List.of_mem_filter hmem
    simpa using this
  · exact paginate_sorted _ _ o l
  · unfold list_trips
    simp [apply_pagination, sort_length]

/- ### Characterization of successful updates -/

/-- What a successful `update_note` returns: each supplied field is applied
(an absent field defaults to the stored value), `id` and `created_at` are
untouched, a no-net-change update returns the stored row and leaves the
store unchanged, and a net change stamps `updated_at := now`. -/
theorem update_note_ok {db : DB} {now : Nat} {nid : Int} {p : NoteUpdate}
    {n r : NoteRow} {db' : DB}
    (hf : db.getNote nid = some n)
    (hr : update_note db now nid p = (.ok r, db')) :
    p.title.getD (some n.title) = some r.title ∧
    p.content.getD n.content = r.content ∧
    p.trip_id.getD (some n.trip_id) = some r.trip_id ∧
    r.id = n.id ∧ r.created_at = n.created_at ∧
    ((p.title.getD (some n.title) = some n.title ∧ p.content.getD n.content = n.content ∧
      p.trip_id.getD (some n.trip_id) = some n.trip_id) → (r = n ∧ db' = db)) ∧
    (¬(p.title.getD (some n.title) = some n.title ∧ p.content.getD n.content = n.content ∧
      p.trip_id.getD (some n.trip_id) = some n.trip_id) → r.updated_at = now) := by
  unfold update_note at hr
  rw [hf] at hr
  dsimp only [] at hr
  split at hr
  · exact absurd hr (by simp)
  · split at hr
    · rename_i hC
      simp only [Prod.mk.injEq, Except.ok.injEq] at hr
      obtain ⟨hrn, hdb⟩ := hr
      subst hrn
      subst hdb
      exact ⟨hC.1, hC.2.1, hC.2.2, rfl, rfl, fun _ => ⟨rfl, rfl⟩, fun hn => absurd hC hn⟩
    · rename_i hC
      split at hr
      · rename_i ttl tid heq1 heq2
        split at hr
        · simp only [Prod.mk.injEq, Except.ok.injEq] at hr
          obtain ⟨hrn, hdb⟩ := hr
          subst hrn
          exact ⟨heq1, rfl, heq2, rfl, rfl, fun hcc => absurd hcc hC, fun _ => rfl⟩
        · exact absurd hr (by simp)
      · exact absurd hr (by simp)

/-- What a successful `update_trip` returns (same reading as
`update_note_ok`). -/
theorem update_trip_ok {db : DB} {now : Nat} {tid : Int} {p : TripUpdate}
    {t r : TripRow} {db' : DB}
    (hf : db.getTrip tid = some t)
    (hr : update_trip db now tid p = (.ok r, db')) :
    p.name.getD (some t.name) = some r.name ∧
    p.description.getD t.description = r.description ∧
    p.start_date.getD t.start_date = r.start_date ∧
    p.end_date.getD t.end_date = r.end_date ∧
    r.id = t.id ∧ r.created_at = t.created_at ∧
    ((p.name.getD (some t.name) = some t.name ∧
      p.description.getD t.description = t.description ∧
      p.start_date.getD t.start_date = t.start_date ∧
      p.end_date.getD t.end_date = t.end_date) → (r = t ∧ db' = db)) ∧
    (¬(p.name.getD (some t.name) = some t.name ∧
      p.description.getD t.description = t.description ∧
      p.start_date.getD t.start_date = t.start_date ∧
      p.end_date.getD t.end_date = t.end_date) → r.updated_at = now) := by
  unfold update_trip at hr
  rw [hf] at hr
  dsimp only [] at hr
  split at hr
  · rename_i hC
    simp only [Prod.mk.injEq, Except.ok.injEq] at hr
    obtain ⟨hrn, hdb⟩ := hr
    subst hrn
    subst hdb
    exact ⟨hC.1, hC.2.1, hC.2.2.1, hC.2.2.2, rfl, rfl, fun _ => ⟨rfl, rfl⟩,
      fun hn => absurd hC hn⟩
  · rename_i hC
    split at hr
    · exact absurd hr (by simp)
    · rename_i nm heq1
      simp only [Prod.mk.injEq, Except.ok.injEq] at hr
      obtain ⟨hrn, hdb⟩ := hr
      subst hrn
      exact ⟨heq1, rfl, rfl, rfl, rfl, rfl, fun hcc => absurd hcc hC, fun _ => rfl⟩

/-- What a successful `update_destination` returns; its schema has no
`trip_id`, so `trip_id` is always untouched. -/
theorem update_destination_ok {db : DB} {now : Nat} {did : Int} {p : DestinationUpdate}
    {d r : DestinationRow} {db' : DB}
    (hf : db.getDestination did = some d)
    (hr : update_destination db now did p = (.ok r, db')) :
    p.name.getD (some d.name) = some r.name ∧
    p.country.getD d.country = r.country ∧
    p.arrival_date.getD d.arrival_date = r.arrival_date ∧
    p.departure_date.getD d.departure_date = r.departure_date ∧
    p.notes.getD d.notes = r.notes ∧
    r.id = d.id ∧ r.trip_id = d.trip_id ∧ r.created_at = d.created_at ∧
    ((p.name.getD (some d.name) = some d.name ∧
      p.country.getD d.country = d.country ∧
      p.arrival_date.getD d.arrival_date = d.arrival_date ∧
      p.departure_date.getD d.departure_date = d.departure_date ∧
      p.notes.getD d.notes = d.notes) → (r = d ∧ db' = db)) ∧
    (¬(p.name.getD (some d.name) = some d.name ∧
      p.country.getD d.country = d.country ∧
      p.arrival_date.getD d.arrival_date = d.arrival_date ∧
      p.departure_date.getD d.departure_date = d.departure_date ∧
      p.notes.getD d.notes = d.notes) → r.updated_at = now) := by
  unfold update_destination at hr
  rw [hf] at hr
  dsimp only [] at hr
  split at hr
  · rename_i hC
    simp only [Prod.mk.injEq, Except.ok.injEq] at hr
    obtain ⟨hrn, hdb⟩ := hr
    subst hrn
    subst hdb
    exact ⟨hC.1, hC.2.1, hC.2.2.1, hC.2.2.2.1, hC.2.2.2.2, rfl, rfl, rfl,
      fun _ => ⟨rfl, rfl⟩, fun hn => absurd hC hn⟩
  · rename_i hC
    split at hr
    · exact absurd hr (by simp)
    · rename_i nm heq1
      simp only [Prod.mk.injEq, Except.ok.injEq] at hr
      obtain ⟨hrn, hdb⟩ := hr
      subst hrn
      exact ⟨heq1, rfl, rfl, rfl, rfl, rfl, rfl, rfl,
        fun hcc => absurd hcc hC, fun _ => rfl⟩

/-- What a successful `update_itinerary` returns. -/
theorem update_itinerary_ok {db : DB} {now : Nat} {iid : Int} {p : ItineraryItemUpdate}
    {i r : ItineraryItemRow} {db' : DB}
    (hf : db.getItineraryItem iid = some i)
    (hr : update_itinerary db now iid p = (.ok r, db')) :
    p.title.getD (some i.title) = some r.title ∧
    p.description.getD i.description = r.description ∧
    p.date.getD i.date = r.date ∧
    p.start_time.getD i.start_time = r.start_time ∧
    p.end_time.getD i.end_time = r.end_time ∧
    p.location.getD i.location = r.location ∧
    p.cost.getD i.cost = r.cost ∧
    p.destination_id.getD i.destination_id = r.destination_id ∧
    p.trip_id.getD (some i.trip_id) = some r.trip_id ∧
    r.id = i.id ∧ r.created_at = i.created_at ∧
    ((p.title.getD (some i.title) = some i.title ∧
      p.description.getD i.description = i.description ∧
      p.date.getD i.date = i.date ∧
      p.start_time.getD i.start_time = i.start_time ∧
      p.end_time.getD i.end_time = i.end_time ∧
      p.location.getD i.location = i.location ∧
      p.cost.getD i.cost = i.cost ∧
      p.destination_id.getD i.destination_id = i.destination_id ∧
      p.trip_id.getD (some i.trip_id) = some i.trip_id) → (r = i ∧ db' = db)) ∧
    (¬(p.title.getD (some i.title) = some i.title ∧
      p.description.getD i.description = i.description ∧
      p.date.getD i.date = i.date ∧
      p.start_time.getD i.start_time = i.start_time ∧
      p.end_time.getD i.end_time = i.end_time ∧
      p.location.getD i.location = i.location ∧
      p.cost.getD i.cost = i.cost ∧
      p.destination_id.getD i.destination_id = i.destination_id ∧
      p.trip_id.getD (some i.trip_id) = some i.trip_id) → r.updated_at = now) := by
  unfold update_itinerary at hr
  rw [hf] at hr
  dsimp only [] at hr
  split at hr
  · exact absurd hr (by simp)
  · split at hr
    · exact absurd hr (by simp)
    · split at hr
      · rename_i hC
        simp only [Prod.mk.injEq, Except.ok.injEq] at hr
        obtain ⟨hrn, hdb⟩ := hr
        subst hrn
        subst hdb
        exact ⟨hC.1, hC.2.1, hC.2.2.1, hC.2.2.2.1, hC.2.2.2.2.1, hC.2.2.2.2.2.1,
          hC.2.2.2.2.2.2.1, hC.2.2.2.2.2.2.2.1, hC.2.2.2.2.2.2.2.2, rfl, rfl,
          fun _ => ⟨rfl, rfl⟩, fun hn => absurd hC hn⟩
      · rename_i hC
        split at hr
        · rename_i ttl tid2 heq1 heq2
          split at hr
          · simp only [Prod.mk.injEq, Except.ok.injEq] at hr
            obtain ⟨hrn, hdb⟩ := hr
            subst hrn
            exact ⟨heq1, rfl, rfl, rfl, rfl, rfl, rfl, rfl, heq2, rfl, rfl,
              fun hcc => absurd hcc hC, fun _ => rfl⟩
          · exact absurd hr (by simp)
        · exact absurd hr (by simp)

/-- What a successful `update_accommodation` returns. -/
theorem update_accommodation_ok {db : DB} {now : Nat} {aid : Int} {p : AccommodationUpdate}
    {a r : AccommodationRow} {db' : DB}
    (hf : db.getAccommodation aid = some a)
    (hr : update_accommodation db now aid p = (.ok r, db')) :
    p.name.getD (some a.name) = some r.name ∧
    p.address.getD a.address = r.address ∧
    p.check_in.getD a.check_in = r.check_in ∧
    p.check_out.getD a.check_out = r.check_out ∧
    p.booking_ref.getD a.booking_ref = r.booking_ref ∧
    p.notes.getD a.notes = r.notes ∧
    p.trip_id.getD (some a.trip_id) = some r.trip_id ∧
    r.id = a.id ∧ r.created_at = a.created_at ∧
    ((p.name.getD (some a.name) = some a.name ∧
      p.address.getD a.address = a.address ∧
      p.check_in.getD a.check_in = a.check_in ∧
      p.check_out.getD a.check_out = a.check_out ∧
      p.booking_ref.getD a.booking_ref = a.booking_ref ∧
      p.notes.getD a.notes = a.notes ∧
      p.trip_id.getD (some a.trip_id) = some a.trip_id) → (r = a ∧ db' = db)) ∧
    (¬(p.name.getD (some a.name) = some a.name ∧
      p.address.getD a.address = a.address ∧
      p.check_in.getD a.check_in = a.check_in ∧
      p.check_out.getD a.check_out = a.check_out ∧
      p.booking_ref.getD a.booking_ref = a.booking_ref ∧
      p.notes.getD a.notes = a.notes ∧
      p.trip_id.getD (some a.trip_id) = some a.trip_id) → r.updated_at = now) := by
  unfold update_accommodation at hr
  rw [hf] at hr
  dsimp only [] at hr
  split at hr
  · exact absurd hr (by simp)
  · split at hr
    · rename_i hC
      simp only [Prod.mk.injEq, Except.ok.injEq] at hr
      obtain ⟨hrn, hdb⟩ := hr
      subst hrn
      subst hdb
      exact ⟨hC.1, hC.2.1, hC.2.2.1, hC.2.2.2.1, hC.2.2.2.2.1, hC.2.2.2.2.2.1,
        hC.2.2.2.2.2.2, rfl, rfl, fun _ => ⟨rfl, rfl⟩, fun hn => absurd hC hn⟩
    · rename_i hC
      split at hr
      · rename_i nm tid2 heq1 heq2
        split at hr
        · simp only [Prod.mk.injEq, Except.ok.injEq] at hr
          obtain ⟨hrn, hdb⟩ := hr
          subst hrn
          exact ⟨heq1, rfl, rfl, rfl, rfl, rfl, heq2, rfl, rfl,
            fun hcc => absurd hcc hC, fun _ => rfl⟩
        · exact absurd hr (by simp)
      · exact absurd hr (by simp)

/-- What a successful `update_transport` returns. -/
theorem update_transport_ok {db : DB} {now : Nat} {trid : Int} {p : TransportUpdate}
    {t r : TransportRow} {db' : DB}
    (hf : db.getTransport trid = some t)
    (hr : update_transport db now trid p = (.ok r, db')) :
    p.type.getD (some t.type) = some r.type ∧
    p.provider.getD t.provider = r.provider ∧
    p.departure_location.getD t.departure_location = r.departure_location ∧
    p.arrival_location.getD t.arrival_location = r.arrival_location ∧
    p.departure_date.getD t.departure_date = r.departure_date ∧
    p.arrival_date.getD t.arrival_date = r.arrival_date ∧
    p.booking_ref.getD t.booking_ref = r.booking_ref ∧
    p.notes.getD t.notes = r.notes ∧
    p.trip_id.getD (some t.trip_id) = some r.trip_id ∧
    r.id = t.id ∧ r.created_at = t.created_at ∧
    ((p.type.getD (some t.type) = some t.type ∧
      p.provider.getD t.provider = t.provider ∧
      p.departure_location.getD t.departure_location = t.departure_location ∧
      p.arrival_location.getD t.arrival_location = t.arrival_location ∧
      p.departure_date.getD t.departure_date = t.departure_date ∧
      p.arrival_date.getD t.arrival_date = t.arrival_date ∧
      p.booking_ref.getD t.booking_ref = t.booking_ref ∧
      p.notes.getD t.notes = t.notes ∧
      p.trip_id.getD (some t.trip_id) = some t.trip_id) → (r = t ∧ db' = db)) ∧
    (¬(p.type.getD (some t.type) = some t.type ∧
      p.provider.getD t.provider = t.provider ∧
      p.departure_location.getD t.departure_location = t.departure_location ∧
      p.arrival_location.getD t.arrival_location = t.arrival_location ∧
      p.departure_date.getD t.departure_date = t.departure_date ∧
      p.arrival_date.getD t.arrival_date = t.arrival_date ∧
      p.booking_ref.getD t.booking_ref = t.booking_ref ∧
      p.notes.getD t.notes = t.notes ∧
      p.trip_id.getD (some t.trip_id) = some t.trip_id) → r.updated_at = now) := by
  unfold update_transport at hr
  rw [hf] at hr
  dsimp only [] at hr
  split at hr
  · exact absurd hr (by simp)
  · split at hr
    · rename_i hC
      simp only [Prod.mk.injEq, Except.ok.injEq] at hr
      obtain ⟨hrn, hdb⟩ := hr
      subst hrn
      subst hdb
      exact ⟨hC.1, hC.2.1, hC.2.2.1, hC.2.2.2.1, hC.2.2.2.2.1, hC.2.2.2.2.2.1,
        hC.2.2.2.2.2.2.1, hC.2.2.2.2.2.2.2.1, hC.2.2.2.2.2.2.2.2, rfl, rfl,
        fun _ => ⟨rfl, rfl⟩, fun hn => absurd hC hn⟩
    · rename_i hC
      split at hr
      · rename_i ty tid2 heq1 heq2
        split at hr
        · simp only [Prod.mk.injEq, Except.ok.injEq] at hr
          obtain ⟨hrn, hdb⟩ := hr
          subst hrn
          exact ⟨heq1, rfl, rfl, rfl, rfl, rfl, rfl, rfl, heq2, rfl, rfl,
            fun hcc => absurd hcc hC, fun _ => rfl⟩
        · exact absurd hr (by simp)
      · exact absurd hr (by simp)

/-- A stored trip created and last updated at time 5. -/
def tripJapan : TripRow := ⟨1, "Japan 2024", none, none, none, 5, 5⟩

/-- A store holding only `tripJapan`. -/
def dbC4 : DB := { emptyDB with trips := [tripJapan], next_trip_id := 2 }

/-- Claim C4 counterexample: a successful partial update whose body is empty
(`model_dump(exclude_unset=True)` yields no fields) emits no UPDATE, so
`updated_at` stays 5 instead of being refreshed to the request time 9 — the
claim that every successful update refreshes `updated_at` is false at this
input. -/
theorem C4_counterexample_empty_update :
    update_trip dbC4 9 1 {} = (.ok tripJapan, dbC4) ∧ tripJapan.updated_at ≠ 9 := by
  refine ⟨rfl, by decide⟩

/-- Claim C4 (amended): `created_at` is set at insert and never changed by
an update; a successful update with an empty body returns the row and store
unchanged (no `updated_at` refresh, no UPDATE emitted — likewise when every
supplied value equals the stored one); whenever the update actually changes
the row, `updated_at` is set to the request time. -/
theorem C4_amended_timestamps :
    (∀ db now id p t r db', db.getTrip id = some t →
      update_trip db now id p = (.ok r, db') →
      r.created_at = t.created_at ∧ (p = {} → r = t ∧ db' = db) ∧
      (r ≠ t → r.updated_at = now)) ∧
    (∀ db now id p d r db', db.getDestination id = some d →
      update_destination db now id p = (.ok r, db') →
      r.created_at = d.created_at ∧ (p = {} → r = d ∧ db' = db) ∧
      (r ≠ d → r.updated_at = now)) ∧
    (∀ db now id p i r db', db.getItineraryItem id = some i →
      update_itinerary db now id p = (.ok r, db') →
      r.created_at = i.created_at ∧ (p = {} → r = i ∧ db' = db) ∧
      (r ≠ i → r.updated_at = now)) ∧
    (∀ db now id p a r db', db.getAccommodation id = some a →
      update_accommodation db now id p = (.ok r, db') →
      r.created_at = a.created_at ∧ (p = {} → r = a ∧ db' = db) ∧
      (r ≠ a → r.updated_at = now)) ∧
    (∀ db now id p t r db', db.getTransport id = some t →
      update_transport db now id p = (.ok r, db') →
      r.created_at = t.created_at ∧ (p = {} → r = t ∧ db' = db) ∧
      (r ≠ t → r.updated_at = now)) ∧
    (∀ db now id p n r db', db.getNote id = some n →
      update_note db now id p = (.ok r, db') →
      r.created_at = n.created_at ∧ (p = {} → r = n ∧ db' = db) ∧
      (r ≠ n → r.updated_at = now)) := by
  refine ⟨fun db now id p t r db' hf hr => ?_, fun db now id p d r db' hf hr => ?_,
    fun db now id p i r db' hf hr => ?_, fun db now id p a r db' hf hr => ?_,
    fun db now id p t r db' hf hr => ?_, fun db now id p n r db' hf hr => ?_⟩
  · obtain ⟨_, _, _, _, _, hca, hC, hNC⟩ := update_trip_ok hf hr
    refine ⟨hca, fun hp => ?_, fun hne => hNC (fun hcc => hne (hC hcc).1)⟩
    subst hp
    exact hC ⟨rfl, rfl, rfl, rfl⟩
  · obtain ⟨_, _, _, _, _, _, _, hca, hC, hNC⟩ := update_destination_ok hf hr
    refine ⟨hca, fun hp => ?_, fun hne => hNC (fun hcc => hne (hC hcc).1)⟩
    subst hp
    exact hC ⟨rfl, rfl, rfl, rfl, rfl⟩
  · obtain ⟨_, _, _, _, _, _, _, _, _, _, hca, hC, hNC⟩ := update_itinerary_ok hf hr
    refine ⟨hca, fun hp => ?_, fun hne => hNC (fun hcc => hne (hC hcc).1)⟩
    subst hp
    exact hC ⟨rfl, rfl, rfl, rfl, rfl, rfl, rfl, rfl, rfl⟩
  · obtain ⟨_, _, _, _, _, _, _, _, hca, hC, hNC⟩ := update_accommodation_ok hf hr
    refine ⟨hca, fun hp => ?_, fun hne => hNC (fun hcc => hne (hC hcc).1)⟩
    subst hp
    exact hC ⟨rfl, rfl, rfl, rfl, rfl, rfl, rfl⟩
  · obtain ⟨_, _, _, _, _, _, _, _, _, _, hca, hC, hNC⟩ := update_transport_ok hf hr
    refine ⟨hca, fun hp => ?_, fun hne => hNC (fun hcc => hne (hC hcc).1)⟩
    subst hp
    exact hC ⟨rfl, rfl, rfl, rfl, rfl, rfl, rfl, rfl, rfl⟩
  · obtain ⟨_, _, _, hid, hca, hC, hNC⟩ := update_note_ok hf hr
    refine ⟨hca, fun hp => ?_, fun hne => hNC (fun hcc => hne (hC hcc).1)⟩
    subst hp
    exact hC ⟨rfl, rfl, rfl⟩

/-- Witness for C4 at a concrete input: renaming the trip at time 9 keeps
`created_at = 5` and stamps `updated_at = 9`. -/
theorem C4_witness :
    (⟨1, "Tokyo spring", none, none, none, 5, 9⟩ : TripRow).created_at = tripJapan.created_at ∧
    (({ name := some (some "Tokyo spring") } : TripUpdate) = {} →
      (⟨1, "Tokyo spring", none, none, none, 5, 9⟩ : TripRow) = tripJapan ∧
        { dbC4 with trips := [⟨1, "Tokyo spring", none, none, none, 5, 9⟩] } = dbC4) ∧
    ((⟨1, "Tokyo spring", none, none, none, 5, 9⟩ : TripRow) ≠ tripJapan →
      (⟨1, "Tokyo spring", none, none, none, 5, 9⟩ : TripRow).updated_at = 9) :=
  (C4_amended_timestamps).1 dbC4 9 1 { name := some (some "Tokyo spring") } tripJapan
    ⟨1, "Tokyo spring", none, none, none, 5, 9⟩
    { dbC4 with trips := [⟨1, "Tokyo spring", none, none, none, 5, 9⟩] }
    (by decide) rfl

/-- Field-application reading for a non-nullable column: absent keeps the
stored value, supplied (necessarily non-null on success) sets it. -/
theorem applied_req {α : Type} {pf : Option (Option α)} {cur res : α}
    (h : pf.getD (some cur) = some res) :
    (pf = none → res = cur) ∧ (∀ v, pf = some (some v) → res = v) := by
  constructor
  · intro hn
    rw [hn] at h
    simpa using h.symm
  · intro v hv
    rw [hv] at h
    simpa using h.symm

/-- Field-application reading for a nullable column: absent keeps the stored
value, supplied sets it — including an explicit null. -/
theorem applied_opt {α : Type} {pf : Option α} {cur res : α}
    (h : pf.getD cur = res) :
    (pf = none → res = cur) ∧ (∀ v, pf = some v → res = v) := by
  constructor
  · intro hn
    rw [hn] at h
    exact h.symm
  · intro v hv
    rw [hv] at h
    exact h.symm

/-- Claim C5: for every entity and every successful partial update, a field
absent from the body keeps its stored value, a supplied field is applied —
for nullable columns an explicit null is applied as NULL — and no other
body field is modified; `id` and `created_at` (and `trip_id` where the
schema has no such field) are untouched.  Stated for all six entities. -/
theorem C5_partial_update_frame :
    (∀ db now id p t r db', db.getTrip id = some t →
      update_trip db now id p = (.ok r, db') →
      r.id = t.id ∧ r.created_at = t.created_at ∧
      (p.name = none → r.name = t.name) ∧
      (∀ v, p.name = some (some v) → r.name = v) ∧
      (p.description = none → r.description = t.description) ∧
      (∀ v, p.description = some v → r.description = v) ∧
      (p.start_date = none → r.start_date = t.start_date) ∧
      (∀ v, p.start_date = some v → r.start_date = v) ∧
      (p.end_date = none → r.end_date = t.end_date) ∧
      (∀ v, p.end_date = some v → r.end_date = v)) ∧
    (∀ db now id p d r db', db.getDestination id = some d →
      update_destination db now id p = (.ok r, db') →
      r.id = d.id ∧ r.trip_id = d.trip_id ∧ r.created_at = d.created_at ∧
      (p.name = none → r.name = d.name) ∧
      (∀ v, p.name = some (some v) → r.name = v) ∧
      (p.country = none → r.country = d.country) ∧
      (∀ v, p.country = some v → r.country = v) ∧
      (p.arrival_date = none → r.arrival_date = d.arrival_date) ∧
      (∀ v, p.arrival_date = some v → r.arrival_date = v) ∧
      (p.departure_date = none → r.departure_date = d.departure_date) ∧
      (∀ v, p.departure_date = some v → r.departure_date = v) ∧
      (p.notes = none → r.notes = d.notes) ∧
      (∀ v, p.notes = some v → r.notes = v)) ∧
    (∀ db now id p i r db', db.getItineraryItem id = some i →
      update_itinerary db now id p = (.ok r, db') →
      r.id = i.id ∧ r.created_at = i.created_at ∧
      (p.title = none → r.title = i.title) ∧
      (∀ v, p.title = some (some v) → r.title = v) ∧
      (p.description = none → r.description = i.description) ∧
      (∀ v, p.description = some v → r.description = v) ∧
      (p.date = none → r.date = i.date) ∧
      (∀ v, p.date = some v → r.date = v) ∧
      (p.start_time = none → r.start_time = i.start_time) ∧
      (∀ v, p.start_time = some v → r.start_time = v) ∧
      (p.end_time = none → r.end_time = i.end_time) ∧
      (∀ v, p.end_time = some v → r.end_time = v) ∧
      (p.location = none → r.location = i.location) ∧
      (∀ v, p.location = some v → r.location = v) ∧
      (p.cost = none → r.cost = i.cost) ∧
      (∀ v, p.cost = some v → r.cost = v) ∧
      (p.destination_id = none → r.destination_id = i.destination_id) ∧
      (∀ v, p.destination_id = some v → r.destination_id = v) ∧
      (p.trip_id = none → r.trip_id = i.trip_id) ∧
      (∀ v, p.trip_id = some (some v) → r.trip_id = v)) ∧
    (∀ db now id p a r db', db.getAccommodation id = some a →
      update_accommodation db now id p = (.ok r, db') →
      r.id = a.id ∧ r.created_at = a.created_at ∧
      (p.name = none → r.name = a.name) ∧
      (∀ v, p.name = some (some v) → r.name = v) ∧
      (p.address = none → r.address = a.address) ∧
      (∀ v, p.address = some v → r.address = v) ∧
      (p.check_in = none → r.check_in = a.check_in) ∧
      (∀ v, p.check_in = some v → r.check_in = v) ∧
      (p.check_out = none → r.check_out = a.check_out) ∧
      (∀ v, p.check_out = some v → r.check_out = v) ∧
      (p.booking_ref = none → r.booking_ref = a.booking_ref) ∧
      (∀ v, p.booking_ref = some v → r.booking_ref = v) ∧
      (p.notes = none → r.notes = a.notes) ∧
      (∀ v, p.notes = some v → r.notes = v) ∧
      (p.trip_id = none → r.trip_id = a.trip_id) ∧
      (∀ v, p.trip_id = some (some v) → r.trip_id = v)) ∧
    (∀ db now id p t r db', db.getTransport id = some t →
      update_transport db now id p = (.ok r, db') →
      r.id = t.id ∧ r.created_at = t.created_at ∧
      (p.type = none → r.type = t.type) ∧
      (∀ v, p.type = some (some v) → r.type = v) ∧
      (p.provider = none → r.provider = t.provider) ∧
      (∀ v, p.provider = some v → r.provider = v) ∧
      (p.departure_location = none → r.departure_location = t.departure_location) ∧
      (∀ v, p.departure_location = some v → r.departure_location = v) ∧
      (p.arrival_location = none → r.arrival_location = t.arrival_location) ∧
      (∀ v, p.arrival_location = some v → r.arrival_location = v) ∧
      (p.departure_date = none → r.departure_date = t.departure_date) ∧
      (∀ v, p.departure_date = some v → r.departure_date = v) ∧
      (p.arrival_date = none → r.arrival_date = t.arrival_date) ∧
      (∀ v, p.arrival_date = some v → r.arrival_date = v) ∧
      (p.booking_ref = none → r.booking_ref = t.booking_ref) ∧
      (∀ v, p.booking_ref = some v → r.booking_ref = v) ∧
      (p.notes = none → r.notes = t.notes) ∧
      (∀ v, p.notes = some v → r.notes = v) ∧
      (p.trip_id = none → r.trip_id = t.trip_id) ∧
      (∀ v, p.trip_id = some (some v) → r.trip_id = v)) ∧
    (∀ db now id p n r db', db.getNote id = some n →
      update_note db now id p = (.ok r, db') →
      r.id = n.id ∧ r.created_at = n.created_at ∧
      (p.title = none → r.title = n.title) ∧
      (∀ v, p.title = some (some v) → r.title = v) ∧
      (p.content = none → r.content = n.content) ∧
      (∀ v, p.content = some v → r.content = v) ∧
      (p.trip_id = none → r.trip_id = n.trip_id) ∧
      (∀ v, p.trip_id = some (some v) → r.trip_id = v)) := by
  refine ⟨fun db now id p t r db' hf hr => ?_, fun db now id p d r db' hf hr => ?_,
    fun db now id p i r db' hf hr => ?_, fun db now id p a r db' hf hr => ?_,
    fun db now id p t r db' hf hr => ?_, fun db now id p n r db' hf hr => ?_⟩
  · obtain ⟨h1, h2, h3, h4, hid, hca, _, _⟩ := update_trip_ok hf hr
    obtain ⟨h1a, h1b⟩ := applied_req h1
    obtain ⟨h2a, h2b⟩ := applied_opt h2
    obtain ⟨h3a, h3b⟩ := applied_opt h3
    obtain ⟨h4a, h4b⟩ := applied_opt h4
    exact ⟨hid, hca, h1a, h1b, h2a, h2b, h3a, h3b, h4a, h4b⟩
  · obtain ⟨h1, h2, h3, h4, h5, hid, htr, hca, _, _⟩ := update_destination_ok hf hr
    obtain ⟨h1a, h1b⟩ := applied_req h1
    obtain ⟨h2a, h2b⟩ := applied_opt h2
    obtain ⟨h3a, h3b⟩ := applied_opt h3
    obtain ⟨h4a, h4b⟩ := applied_opt h4
    obtain ⟨h5a, h5b⟩ := applied_opt h5
    exact ⟨hid, htr, hca, h1a, h1b, h2a, h2b, h3a, h3b, h4a, h4b, h5a, h5b⟩
  · obtain ⟨h1, h2, h3, h4, h5, h6, h7, h8, h9, hid, hca, _, _⟩ := update_itinerary_ok hf hr
    obtain ⟨h1a, h1b⟩ := applied_req h1
    obtain ⟨h2a, h2b⟩ := applied_opt h2
    obtain ⟨h3a, h3b⟩ := applied_opt h3
    obtain ⟨h4a, h4b⟩ := applied_opt h4
    obtain ⟨h5a, h5b⟩ := applied_opt h5
    obtain ⟨h6a, h6b⟩ := applied_opt h6
    obtain ⟨h7a, h7b⟩ := applied_opt h7
    obtain ⟨h8a, h8b⟩ := applied_opt h8
    obtain ⟨h9a, h9b⟩ := applied_req h9
    exact ⟨hid, hca, h1a, h1b, h2a, h2b, h3a, h3b, h4a, h4b, h5a, h5b, h6a, h6b,
      h7a, h7b, h8a, h8b, h9a, h9b⟩
  · obtain ⟨h1, h2, h3, h4, h5, h6, h7, hid, hca, _, _⟩ := update_accommodation_ok hf hr
    obtain ⟨h1a, h1b⟩ := applied_req h1
    obtain ⟨h2a, h2b⟩ := applied_opt h2
    obtain ⟨h3a, h3b⟩ := applied_opt h3
    obtain ⟨h4a, h4b⟩ := applied_opt h4
    obtain ⟨h5a, h5b⟩ := applied_opt h5
    obtain ⟨h6a, h6b⟩ := applied_opt h6
    obtain ⟨h7a, h7b⟩ := applied_req h7
    exact ⟨hid, hca, h1a, h1b, h2a, h2b, h3a, h3b, h4a, h4b, h5a, h5b, h6a, h6b, h7a, h7b⟩
  · obtain ⟨h1, h2, h3, h4, h5, h6, h7, h8, h9, hid, hca, _, _⟩ := update_transport_ok hf hr
    obtain ⟨h1a, h1b⟩ := applied_req h1
    obtain ⟨h2a, h2b⟩ := applied_opt h2
    obtain ⟨h3a, h3b⟩ := applied_opt h3
    obtain ⟨h4a, h4b⟩ := applied_opt h4
    obtain ⟨h5a, h5b⟩ := applied_opt h5
    obtain ⟨h6a, h6b⟩ := applied_opt h6
    obtain ⟨h7a, h7b⟩ := applied_opt h7
    obtain ⟨h8a, h8b⟩ := applied_opt h8
    obtain ⟨h9a, h9b⟩ := applied_req h9
    exact ⟨hid, hca, h1a, h1b, h2a, h2b, h3a, h3b, h4a, h4b, h5a, h5b, h6a, h6b,
      h7a, h7b, h8a, h8b, h9a, h9b⟩
  · obtain ⟨h1, h2, h3, hid, hca, _, _⟩ := update_note_ok hf hr
    obtain ⟨h1a, h1b⟩ := applied_req h1
    obtain ⟨h2a, h2b⟩ := applied_opt h2
    obtain ⟨h3a, h3b⟩ := applied_req h3
    exact ⟨hid, hca, h1a, h1b, h2a, h2b, h3a, h3b⟩

/-- Witness for C5 at a concrete input: updating the destination's
`country` to an explicit null applies the null, keeps the omitted `name`
and the parent link unchanged. -/
theorem C5_witness :
    (⟨1, 1, "Kyoto", none, none, none, none, 2, 9⟩ : DestinationRow).id = 1 ∧
    (⟨1, 1, "Kyoto", none, none, none, none, 2, 9⟩ : DestinationRow).trip_id = 1 ∧
    (⟨1, 1, "Kyoto", none, none, none, none, 2, 9⟩ : DestinationRow).created_at = 2 ∧
    (⟨1, 1, "Kyoto", none, none, none, none, 2, 9⟩ : DestinationRow).name = "Kyoto" ∧
    (⟨1, 1, "Kyoto", none, none, none, none, 2, 9⟩ : DestinationRow).country = none := by
  have h := (C5_partial_update_frame).2.1 dbC6 9 1 { country := some none }
    ⟨1, 1, "Kyoto", some "Japan", none, none, none, 2, 2⟩
    ⟨1, 1, "Kyoto", none, none, none, none, 2, 9⟩
    { dbC6 with destinations := [⟨1, 1, "Kyoto", none, none, none, none, 2, 9⟩] }
    (by decide) rfl
  exact ⟨h.1.trans (by decide), h.2.1.trans (by decide), h.2.2.1.trans (by decide),
    (h.2.2.2.1 rfl).trans (by decide), h.2.2.2.2.2.2.1 none rfl⟩

/-- Claim C9 counterexample: an update body carrying an empty-string `name`
for a destination passes schema validation (no 422 — `DestinationUpdate`
declares no constraints) and the service then persists the empty name: the
row does not stay unchanged. -/
theorem C9_counterexample_update_unvalidated :
    validDestinationUpdate { name := some (some "") } = true ∧
    update_destination dbC6 9 1 { name := some (some "") } =
      (.ok ⟨1, 1, "", some "Japan", none, none, none, 2, 9⟩,
        { dbC6 with destinations := [⟨1, 1, "", some "Japan", none, none, none, 2, 9⟩] }) := by
  refine ⟨rfl, rfl⟩

/-- Claim C9 (amended): the declared field constraints guard every create
schema (name/title length bounds, `trip_id ≥ 1`, and `destination_id ≥ 1`
when present) and, among the update schemas, only `TripUpdate` — the other
five update schemas declare no constraints and accept every body, so e.g.
an empty-string name in a destination update is not rejected. -/
theorem C9_amended_validation :
    (∀ p : TripCreate, validTripCreate p = true →
      1 ≤ p.name.length ∧ p.name.length ≤ 200) ∧
    (∀ p : DestinationCreate, validDestinationCreate p = true →
      1 ≤ p.name.length ∧ p.name.length ≤ 200 ∧ 1 ≤ p.trip_id) ∧
    (∀ p : ItineraryItemCreate, validItineraryItemCreate p = true →
      1 ≤ p.title.length ∧ p.title.length ≤ 200 ∧ 1 ≤ p.trip_id ∧
      (∀ d, p.destination_id = some d → 1 ≤ d)) ∧
    (∀ p : AccommodationCreate, validAccommodationCreate p = true →
      1 ≤ p.name.length ∧ p.name.length ≤ 200 ∧ 1 ≤ p.trip_id) ∧
    (∀ p : TransportCreate, validTransportCreate p = true →
      1 ≤ p.type.length ∧ p.type.length ≤ 100 ∧ 1 ≤ p.trip_id) ∧
    (∀ p : NoteCreate, validNoteCreate p = true →
      1 ≤ p.title.length ∧ p.title.length ≤ 200 ∧ 1 ≤ p.trip_id) ∧
    (∀ s, validTripUpdate { name := some (some s) } = true ↔
      (1 ≤ s.length ∧ s.length ≤ 200)) ∧
    (∀ p : DestinationUpdate, validDestinationUpdate p = true) ∧
    (∀ p : ItineraryItemUpdate, validItineraryItemUpdate p = true) ∧
    (∀ p : AccommodationUpdate, validAccommodationUpdate p = true) ∧
    (∀ p : TransportUpdate, validTransportUpdate p = true) ∧
    (∀ p : NoteUpdate, validNoteUpdate p = true) := by
  refine ⟨fun p h => ?_, fun p h => ?_, fun p h => ?_, fun p h => ?_, fun p h => ?_,
    fun p h => ?_, fun s => ?_, fun p => rfl, fun p => rfl, fun p => rfl,
    fun p => rfl, fun p => rfl⟩
  · simpa [validTripCreate, lenOK, Bool.and_eq_true, decide_eq_true_eq] using h
  · simpa [validDestinationCreate, lenOK, Bool.and_eq_true, decide_eq_true_eq,
      and_assoc] using h
  · simp only [validItineraryItemCreate, lenOK, optBound, Bool.and_eq_true,
      decide_eq_true_eq] at h
    obtain ⟨⟨⟨hl, hu⟩, ht⟩, hd⟩ := h
    refine ⟨hl, hu, ht, fun d hd2 => ?_⟩
    rw [hd2] at hd
    simpa using hd
  · simpa [validAccommodationCreate, lenOK, Bool.and_eq_true, decide_eq_true_eq,
      and_assoc] using h
  · simpa [validTransportCreate, Bool.and_eq_true, decide_eq_true_eq,
      and_assoc] using h
  · simpa [validNoteCreate, lenOK, Bool.and_eq_true, decide_eq_true_eq,
      and_assoc] using h
  · simp [validTripUpdate, lenOK, Bool.and_eq_true, decide_eq_true_eq]

/-- Witness for C9 at a concrete input: the create constraints hold of a
valid body. -/
theorem C9_witness :
    1 ≤ ({ name := "Kyoto", trip_id := 1 } : DestinationCreate).name.length ∧
    ({ name := "Kyoto", trip_id := 1 } : DestinationCreate).name.length ≤ 200 ∧
    1 ≤ ({ name := "Kyoto", trip_id := 1 } : DestinationCreate).trip_id :=
  (C9_amended_validation).2.1 { name := "Kyoto", trip_id := 1 } (by decide)

/- ### Preservation of referential integrity (claim C2) -/

/-- Inserting a trip keeps existing trip ids live. -/
theorem tripLive_append {trips : List TripRow} {t : TripRow} {k : Int}
    (h : tripLive trips k) : tripLive (trips ++ [t]) k := by
  unfold tripLive at *
  simp only [List.any_append, h, Bool.true_or]

/-- Rewriting rows without changing their ids keeps ids live. -/
theorem tripLive_map_id {trips : List TripRow} {g : TripRow → TripRow}
    (hg : ∀ x, (g x).id = x.id) {k : Int} (h : tripLive trips k) :
    tripLive (trips.map g) k := by
  rw [tripLive_iff] at *
  obtain ⟨t, ht, hid⟩ := h
  exact ⟨g t, List.mem_map_of_mem _ ht, (hg t).trans hid⟩

/-- Removing the trip `dead` keeps every other live id live. -/
theorem tripLive_filter_ne {trips : List TripRow} {dead k : Int}
    (h : tripLive trips k) (hne : k ≠ dead) :
    tripLive (trips.filter (fun x => x.id != dead)) k := by
  rw [tripLive_iff] at *
  obtain ⟨t, ht, hid⟩ := h
  refine ⟨t, List.mem_filter.mpr ⟨ht, ?_⟩, hid⟩
  simp [hid, hne]

/-- The in-place row rewrite of an ORM update keeps trip ids live when the
written row keeps the key it replaces. -/
theorem tripLive_writeRow {trips : List TripRow} {key : Int} {r : TripRow}
    (hr : r.id = key) {k : Int} (h : tripLive trips k) :
    tripLive (trips.map (fun x => if x.id == key then r else x)) k := by
  refine tripLive_map_id (fun x => ?_) h
  by_cases hx : (x.id == key) = true
  · have hxk : x.id = key := by simpa using hx
    simp [hx, hr, hxk]
  · simp [hx]

/-- A filtered child table stays within a valid one. -/
theorem childOK_filter {ρ : Type} {trips : List TripRow} {tid : ρ → Int} {rows : List ρ}
    (p : ρ → Bool) (h : ∀ r ∈ rows, tripLive trips (tid r)) :
    ∀ r ∈ rows.filter p, tripLive trips (tid r) :=
  fun r hr => h r (List.mem_of_mem_filter hr)

/-- Appending a child row with a live parent keeps the table valid. -/
theorem childOK_append {ρ : Type} {trips : List TripRow} {tid : ρ → Int} {rows : List ρ}
    {x : ρ} (h : ∀ r ∈ rows, tripLive trips (tid r)) (hx : tripLive trips (tid x)) :
    ∀ r ∈ rows ++ [x], tripLive trips (tid r) := by
  intro r hr
  rcases List.mem_append.mp hr with h1 | h2
  · exact h r h1
  · rw [List.mem_singleton.mp h2]
    exact hx

/-- Mapping a parent-preserving function over a child table keeps it valid. -/
theorem childOK_map {ρ : Type} {trips : List TripRow} {tid : ρ → Int} {rows : List ρ}
    {g : ρ → ρ} (hg : ∀ x, tid (g x) = tid x) (h : ∀ r ∈ rows, tripLive trips (tid r)) :
    ∀ r ∈ rows.map g, tripLive trips (tid r) := by
  intro r hr
  obtain ⟨x, hx, hgx⟩ := List.mem_map.mp hr
  rw [← hgx, hg]
  exact h x hx

/-- Writing back one row whose parent is live keeps the table valid. -/
theorem childOK_write {ρ : Type} {trips : List TripRow} {tid : ρ → Int} {rows : List ρ}
    {c : ρ → Bool} {r0 : ρ} (hr0 : tripLive trips (tid r0))
    (h : ∀ r ∈ rows, tripLive trips (tid r)) :
    ∀ r ∈ rows.map (fun x => if c x then r0 else x), tripLive trips (tid r) := by
  intro r hr
  obtain ⟨x, hx, hgx⟩ := List.mem_map.mp hr
  by_cases hc : c x = true
  · rw [← hgx]
    simpa [hc] using hr0
  · rw [← hgx]
    simp only [hc]
    simpa using h x hx

/-- A trip-table change that keeps every live id live keeps any child table
valid. -/
theorem childOK_tripsExt {ρ : Type} {trips trips' : List TripRow} {tid : ρ → Int}
    {rows : List ρ} (hmono : ∀ k, tripLive trips k → tripLive trips' k)
    (h : ∀ r ∈ rows, tripLive trips (tid r)) :
    ∀ r ∈ rows, tripLive trips' (tid r) := fun r hr => hmono _ (h r hr)

/-- `create_trip` preserves referential integrity. -/
theorem parentsOK_create_trip {db : DB} {now : Nat} {p : TripCreate} (h : parentsOK db) :
    parentsOK (create_trip db now p).2 := by
  obtain ⟨h1, h2, h3, h4, h5⟩ := h
  exact ⟨childOK_tripsExt (fun k => tripLive_append) h1,
    childOK_tripsExt (fun k => tripLive_append) h2,
    childOK_tripsExt (fun k => tripLive_append) h3,
    childOK_tripsExt (fun k => tripLive_append) h4,
    childOK_tripsExt (fun k => tripLive_append) h5⟩

/-- `update_trip` preserves referential integrity. -/
theorem parentsOK_update_trip {db : DB} {now : Nat} {i : Int} {p : TripUpdate}
    (h : parentsOK db) : parentsOK (update_trip db now i p).2 := by
  unfold update_trip
  cases hf : db.getTrip i with
  | none => exact h
  | some t =>
    dsimp only
    split
    · exact h
    · split
      · exact h
      · dsimp only
        obtain ⟨h1, h2, h3, h4, h5⟩ := h
        refine ⟨childOK_tripsExt (fun k hk => tripLive_writeRow ?_ hk) h1,
          childOK_tripsExt (fun k hk => tripLive_writeRow ?_ hk) h2,
          childOK_tripsExt (fun k hk => tripLive_writeRow ?_ hk) h3,
          childOK_tripsExt (fun k hk => tripLive_writeRow ?_ hk) h4,
          childOK_tripsExt (fun k hk => tripLive_writeRow ?_ hk) h5⟩ <;> rfl

/-- `delete_trip` preserves referential integrity: children of the deleted
trip go with it, survivors keep their (different, still live) parent. -/
theorem parentsOK_delete_trip {db : DB} {i : Int} (h : parentsOK db) :
    parentsOK (delete_trip db i).2 := by
  unfold delete_trip
  cases hf : db.getTrip i with
  | none => exact h
  | some t =>
    dsimp only
    obtain ⟨h1, h2, h3, h4, h5⟩ := h
    refine ⟨?_, ?_, ?_, ?_, ?_⟩
    · intro d hd
      have hne : d.trip_id ≠ t.id := by simpa using List.of_mem_filter hd
      exact tripLive_filter_ne (h1 d (List.mem_of_mem_filter hd)) hne
    · intro x hx
      obtain ⟨y, hy, hgy⟩ := List.mem_map.mp hx
      have hyne : y.trip_id ≠ t.id := by simpa using List.of_mem_filter hy
      have htidy : x.trip_id = y.trip_id := by
        rw [← hgy]
        cases hdy : y.destination_id with
        | none => rfl
        | some d =>
          simp only []
          split <;> rfl
      rw [htidy]
      exact tripLive_filter_ne (h2 y (List.mem_of_mem_filter hy)) hyne
    · intro a ha
      have hne : a.trip_id ≠ t.id := by simpa using List.of_mem_filter ha
      exact tripLive_filter_ne (h3 a (List.mem_of_mem_filter ha)) hne
    · intro x hx
      have hne : x.trip_id ≠ t.id := by simpa using List.of_mem_filter hx
      exact tripLive_filter_ne (h4 x (List.mem_of_mem_filter hx)) hne
    · intro n hn
      have hne : n.trip_id ≠ t.id := by simpa using List.of_mem_filter hn
      exact tripLive_filter_ne (h5 n (List.mem_of_mem_filter hn)) hne

/-- `create_destination` preserves referential integrity. -/
theorem parentsOK_create_destination {db : DB} {now : Nat} {p : DestinationCreate}
    (h : parentsOK db) : parentsOK (create_destination db now p).2 := by
  unfold create_destination
  cases hf : db.getTrip p.trip_id with
  | none => exact h
  | some t =>
    dsimp only
    obtain ⟨h1, h2, h3, h4, h5⟩ := h
    have hlive : tripLive db.trips p.trip_id := by
      rw [← getTrip_isSome_iff, hf]
      rfl
    exact ⟨childOK_append h1 hlive, h2, h3, h4, h5⟩

/-- `create_itinerary` preserves referential integrity. -/
theorem parentsOK_create_itinerary {db : DB} {now : Nat} {p : ItineraryItemCreate}
    (h : parentsOK db) : parentsOK (create_itinerary db now p).2 := by
  unfold create_itinerary
  cases hf : db.getTrip p.trip_id with
  | none => exact h
  | some t =>
    dsimp only
    split
    · exact h
    · split
      · obtain ⟨h1, h2, h3, h4, h5⟩ := h
        have hlive : tripLive db.trips p.trip_id := by
          rw [← getTrip_isSome_iff, hf]
          rfl
        exact ⟨h1, childOK_append h2 hlive, h3, h4, h5⟩
      · exact h

/-- `create_accommodation` preserves referential integrity. -/
theorem parentsOK_create_accommodation {db : DB} {now : Nat} {p : AccommodationCreate}
    (h : parentsOK db) : parentsOK (create_accommodation db now p).2 := by
  unfold create_accommodation
  cases hf : db.getTrip p.trip_id with
  | none => exact h
  | some t =>
    dsimp only
    obtain ⟨h1, h2, h3, h4, h5⟩ := h
    have hlive : tripLive db.trips p.trip_id := by
      rw [← getTrip_isSome_iff, hf]
      rfl
    exact ⟨h1, h2, childOK_append h3 hlive, h4, h5⟩

/-- `create_transport` preserves referential integrity. -/
theorem parentsOK_create_transport {db : DB} {now : Nat} {p : TransportCreate}
    (h : parentsOK db) : parentsOK (create_transport db now p).2 := by
  unfold create_transport
  cases hf : db.getTrip p.trip_id with
  | none => exact h
  | some t =>
    dsimp only
    obtain ⟨h1, h2, h3, h4, h5⟩ := h
    have hlive : tripLive db.trips p.trip_id := by
      rw [← getTrip_isSome_iff, hf]
      rfl
    exact ⟨h1, h2, h3, childOK_append h4 hlive, h5⟩

/-- `create_note` preserves referential integrity. -/
theorem parentsOK_create_note {db : DB} {now : Nat} {p : NoteCreate}
    (h : parentsOK db) : parentsOK (create_note db now p).2 := by
  unfold create_note
  cases hf : db.getTrip p.trip_id with
  | none => exact h
  | some t =>
    dsimp only
    obtain ⟨h1, h2, h3, h4, h5⟩ := h
    have hlive : tripLive db.trips p.trip_id := by
      rw [← getTrip_isSome_iff, hf]
      rfl
    exact ⟨h1, h2, h3, h4, childOK_append h5 hlive⟩

/-- `update_destination` preserves referential integrity (`trip_id` is not
updatable here). -/
theorem parentsOK_update_destination {db : DB} {now : Nat} {i : Int} {p : DestinationUpdate}
    (h : parentsOK db) : parentsOK (update_destination db now i p).2 := by
  unfold update_destination
  cases hf : db.getDestination i with
  | none => exact h
  | some d =>
    dsimp only
    split
    · exact h
    · split
      · exact h
      · dsimp only
        obtain ⟨h1, h2, h3, h4, h5⟩ := h
        have hd : d ∈ db.destinations := List.mem_of_find?_eq_some hf
        exact ⟨childOK_write (h1 d hd) h1, h2, h3, h4, h5⟩

/-- `update_itinerary` preserves referential integrity: a committed
`trip_id` change passed the store's FK check. -/
theorem parentsOK_update_itinerary {db : DB} {now : Nat} {i : Int} {p : ItineraryItemUpdate}
    (h : parentsOK db) : parentsOK (update_itinerary db now i p).2 := by
  unfold update_itinerary
  cases hf : db.getItineraryItem i with
  | none => exact h
  | some x =>
    dsimp only
    split
    · exact h
    · split
      · exact h
      · split
        · exact h
        · split
          · split
            · rename_i hcond
              dsimp only
              obtain ⟨h1, h2, h3, h4, h5⟩ := h
              rw [Bool.and_eq_true] at hcond
              have hlive : tripLive db.trips _ := getTrip_isSome_iff.mp hcond.1
              exact ⟨h1, childOK_write hlive h2, h3, h4, h5⟩
            · exact h
          · exact h

/-- `update_accommodation` preserves referential integrity. -/
theorem parentsOK_update_accommodation {db : DB} {now : Nat} {i : Int}
    {p : AccommodationUpdate} (h : parentsOK db) :
    parentsOK (update_accommodation db now i p).2 := by
  unfold update_accommodation
  cases hf : db.getAccommodation i with
  | none => exact h
  | some a =>
    dsimp only
    split
    · exact h
    · split
      · exact h
      · split
        · split
          · rename_i hcond
            dsimp only
            obtain ⟨h1, h2, h3, h4, h5⟩ := h
            have hlive : tripLive db.trips _ := getTrip_isSome_iff.mp hcond
            exact ⟨h1, h2, childOK_write hlive h3, h4, h5⟩
          · exact h
        · exact h

/-- `update_transport` preserves referential integrity. -/
theorem parentsOK_update_transport {db : DB} {now : Nat} {i : Int} {p : TransportUpdate}
    (h : parentsOK db) : parentsOK (update_transport db now i p).2 := by
  unfold update_transport
  cases hf : db.getTransport i with
  | none => exact h
  | some t =>
    dsimp only
    split
    · exact h
    · split
      · exact h
      · split
        · split
          · rename_i hcond
            dsimp only
            obtain ⟨h1, h2, h3, h4, h5⟩ := h
            have hlive : tripLive db.trips _ := getTrip_isSome_iff.mp hcond
            exact ⟨h1, h2, h3, childOK_write hlive h4, h5⟩
          · exact h
        · exact h

/-- `update_note` preserves referential integrity. -/
theorem parentsOK_update_note {db : DB} {now : Nat} {i : Int} {p : NoteUpdate}
    (h : parentsOK db) : parentsOK (update_note db now i p).2 := by
  unfold update_note
  cases hf : db.getNote i with
  | none => exact h
  | some n =>
    dsimp only
    split
    · exact h
    · split
      · exact h
      · split
        · split
          · rename_i hcond
            dsimp only
            obtain ⟨h1, h2, h3, h4, h5⟩ := h
            have hlive : tripLive db.trips _ := getTrip_isSome_iff.mp hcond
            exact ⟨h1, h2, h3, h4, childOK_write hlive h5⟩
          · exact h
        · exact h

/-- `delete_destination` preserves referential integrity: the SET NULL
rewrite does not touch `trip_id`. -/
theorem parentsOK_delete_destination {db : DB} {i : Int} (h : parentsOK db) :
    parentsOK (delete_destination db i).2 := by
  unfold delete_destination
  cases hf : db.getDestination i with
  | none => exact h
  | some d =>
    dsimp only
    obtain ⟨h1, h2, h3, h4, h5⟩ := h
    refine ⟨childOK_filter _ h1, ?_, h3, h4, h5⟩
    refine childOK_map (fun x => ?_) h2
    by_cases hc : (x.destination_id == some d.id) = true
    · simp [hc]
    · simp [hc]

/-- `delete_itinerary` preserves referential integrity. -/
theorem parentsOK_delete_itinerary {db : DB} {i : Int} (h : parentsOK db) :
    parentsOK (delete_itinerary db i).2 := by
  unfold delete_itinerary
  cases hf : db.getItineraryItem i with
  | none => exact h
  | some x =>
    dsimp only
    obtain ⟨h1, h2, h3, h4, h5⟩ := h
    exact ⟨h1, childOK_filter _ h2, h3, h4, h5⟩

/-- `delete_accommodation` preserves referential integrity. -/
theorem parentsOK_delete_accommodation {db : DB} {i : Int} (h : parentsOK db) :
    parentsOK (delete_accommodation db i).2 := by
  unfold delete_accommodation
  cases hf : db.getAccommodation i with
  | none => exact h
  | some a =>
    dsimp only
    obtain ⟨h1, h2, h3, h4, h5⟩ := h
    exact ⟨h1, h2, childOK_filter _ h3, h4, h5⟩

/-- `delete_transport` preserves referential integrity. -/
theorem parentsOK_delete_transport {db : DB} {i : Int} (h : parentsOK db) :
    parentsOK (delete_transport db i).2 := by
  unfold delete_transport
  cases hf : db.getTransport i with
  | none => exact h
  | some t =>
    dsimp only
    obtain ⟨h1, h2, h3, h4, h5⟩ := h
    exact ⟨h1, h2, h3, childOK_filter _ h4, h5⟩

/-- `delete_note` preserves referential integrity. -/
theorem parentsOK_delete_note {db : DB} {i : Int} (h : parentsOK db) :
    parentsOK (delete_note db i).2 := by
  unfold delete_note
  cases hf : db.getNote i with
  | none => exact h
  | some n =>
    dsimp only
    obtain ⟨h1, h2, h3, h4, h5⟩ := h
    exact ⟨h1, h2, h3, h4, childOK_filter _ h5⟩

/-- Every mutating HTTP operation preserves referential integrity. -/
theorem parentsOK_step {db : DB} (h : parentsOK db) (now : Nat) (r : Request) :
    parentsOK (step db now r) := by
  cases r with
  | createTrip p => exact parentsOK_create_trip h
  | updateTrip i p => exact parentsOK_update_trip h
  | deleteTrip i => exact parentsOK_delete_trip h
  | createDestination p => exact parentsOK_create_destination h
  | updateDestination i p => exact parentsOK_update_destination h
  | deleteDestination i => exact parentsOK_delete_destination h
  | createItinerary p => exact parentsOK_create_itinerary h
  | updateItinerary i p => exact parentsOK_update_itinerary h
  | deleteItinerary i => exact parentsOK_delete_itinerary h
  | createAccommodation p => exact parentsOK_create_accommodation h
  | updateAccommodation i p => exact parentsOK_update_accommodation h
  | deleteAccommodation i => exact parentsOK_delete_accommodation h
  | createTransport p => exact parentsOK_create_transport h
  | updateTransport i p => exact parentsOK_update_transport h
  | deleteTransport i => exact parentsOK_delete_transport h
  | createNote p => exact parentsOK_create_note h
  | updateNote i p => exact parentsOK_update_note h
  | deleteNote i => exact parentsOK_delete_note h

/-- Referential integrity holds in every reachable state. -/
theorem parentsOK_reachable {db : DB} (h : Reachable db) : parentsOK db := by
  induction h with
  | init =>
    exact ⟨fun _ hx => absurd hx (List.not_mem_nil _),
      fun _ hx => absurd hx (List.not_mem_nil _),
      fun _ hx => absurd hx (List.not_mem_nil _),
      fun _ hx => absurd hx (List.not_mem_nil _),
      fun _ hx => absurd hx (List.not_mem_nil _)⟩
  | step _ now r ih => exact parentsOK_step ih now r

/-- Claim C2: in every state reachable by the mutating HTTP operations,
every Destination, ItineraryItem, Accommodation, Transport and Note row's
`trip_id` references an existing Trip; and deleting a Trip leaves no child
row referencing it (the ORM cascade removes them all). -/
theorem C2_parent_links_invariant {db : DB} (h : Reachable db) :
    parentsOK db ∧ ∀ tid now, noChildrenOf (step db now (.deleteTrip tid)) tid := by
  have hOK := parentsOK_reachable h
  refine ⟨hOK, fun tid now => ?_⟩
  show noChildrenOf (delete_trip db tid).2 tid
  unfold delete_trip
  cases hf : db.getTrip tid with
  | none =>
    have hdead : ¬ tripLive db.trips tid := by
      intro hl
      have hs := getTrip_isSome_iff.mpr hl
      rw [hf] at hs
      simp at hs
    obtain ⟨h1, h2, h3, h4, h5⟩ := hOK
    exact ⟨fun d hd heq => hdead (heq ▸ h1 d hd),
      fun i hi heq => hdead (heq ▸ h2 i hi),
      fun a ha heq => hdead (heq ▸ h3 a ha),
      fun t ht heq => hdead (heq ▸ h4 t ht),
      fun n hn heq => hdead (heq ▸ h5 n hn)⟩
  | some t =>
    have htid : t.id = tid := by simpa using List.find?_some hf
    dsimp only
    refine ⟨fun d hd => ?_, fun x hx => ?_, fun a ha => ?_, fun tr htr => ?_,
      fun n hn => ?_⟩
    · have := List.of_mem_filter hd
      simpa [htid] using this
    · obtain ⟨y, hy, hgy⟩ := List.mem_map.mp hx
      have hyne : y.trip_id ≠ t.id := by simpa using List.of_mem_filter hy
      have htidy : x.trip_id = y.trip_id := by
        rw [← hgy]
        cases hdy : y.destination_id with
        | none => rfl
        | some dd =>
          simp only []
          split <;> rfl
      rw [htidy, ← htid]
      exact hyne
    · have := List.of_mem_filter ha
      simpa [htid] using this
    · have := List.of_mem_filter htr
      simpa [htid] using this
    · have := List.of_mem_filter hn
      simpa [htid] using this

/-- Witness for C2: the state after creating one trip in the fresh store is
reachable and satisfies referential integrity. -/
theorem C2_witness :
    parentsOK (step emptyDB 3 (.createTrip { name := "Japan 2024" })) :=
  (C2_parent_links_invariant
    (Reachable.step Reachable.init 3 (.createTrip { name := "Japan 2024" }))).1

/-- Witness for C6 at a concrete input: listing destinations with the
truthy filter 1 pages the matching rows sorted by creation time. -/
theorem C6_witness :
    list_destinations dbC6 (some 1) 0 25 =
      (((sortByCreatedDesc (·.created_at)
          (dbC6.destinations.filter (fun r => r.trip_id == 1))).drop 0).take 25,
        (dbC6.destinations.filter (fun r => r.trip_id == 1)).length) :=
  (C6_amended_list_pagination).2.2.2.1 dbC6 1 0 25 (by decide)
